import Mathlib

/-!
# Thread bootstrap layout of `wasi_new_thread` (internal/cre2/thread.c)

A shallow embedding of the C function `wasi_new_thread` and of the part of
`struct pthread` it initialises.

* Machine words (`size_t`, `uintptr_t`, pointers) are natural numbers below
  `Target.W`, the modulus two to the pointer width; every C operation on them is
  written with an explicit reduction modulo `W`.
* Linear memory is a map from byte addresses to byte values.  Multi-byte
  accesses are little endian (WebAssembly) and every byte address is reduced
  modulo `W`.  Out-of-bounds traps are not modelled.
* The collaborators that the C file only declares (`malloc`, `__copy_tls`, the
  `__builtin_wasm_tls_*` queries, `__get_tp`, `PTHREAD_KEYS_MAX`) are fields of
  `Platform`.
* The run is recorded as a trace of events (allocation requests, calls of the
  TLS copy primitive, stores), next to the final memory.
-/

namespace Cre2Thread

/-! ## Machine words -/

/-- Compilation target; it fixes `sizeof(void *)`, which is also the size of
`size_t`, `uintptr_t` and `long`. -/
inductive Target
  | wasm32
  | wasm64
  deriving DecidableEq, Repr

/-- Pointer size in bytes, `sizeof(void *)`. -/
def Target.ptrBytes : Target → Nat
  | .wasm32 => 4
  | .wasm64 => 8

/-- Modulus of `size_t` / `uintptr_t` arithmetic. -/
def Target.W (t : Target) : Nat := 2 ^ (8 * t.ptrBytes)

/-- Wrapping addition of machine words. -/
def addW (W a b : Nat) : Nat := (a + b) % W

/-- Wrapping subtraction of machine words. -/
def subW (W a b : Nat) : Nat := (a + W - b % W) % W

/-- The macro `ROUND(x) (((x)+16-1)&-16)` at type `size_t`; the `int` constant
`-16` converts to `W - 16`. -/
def ROUND (W x : Nat) : Nat := ((x + 16 - 1) % W) &&& (W - 16)

/-- The expression `(uintptr_t) p & -16`. -/
def and_neg16 (W p : Nat) : Nat := (p % W) &&& (W - 16)

/-! ## Byte addressed memory -/

/-- Linear memory: byte address to byte value. -/
abbrev Mem := Nat → Nat

/-- Little-endian store of the low `n` bytes of `v` at address `a`. -/
def storeBytes (W : Nat) (m : Mem) (a n v : Nat) : Mem :=
  fun x =>
    if x < W ∧ (x + W - a % W) % W < n then v / 256 ^ ((x + W - a % W) % W) % 256
    else m x

/-- Little-endian load of `n` bytes at address `a`. -/
def loadBytes (W : Nat) (m : Mem) (a : Nat) : Nat → Nat
  | 0 => 0
  | n + 1 => m (a % W) % 256 + 256 * loadBytes W m (a + 1) n

/-- The byte ranges `[a, a + n)` and `[b, b + k)` (wrapping) share no address. -/
def apart (W a n b k : Nat) : Prop :=
  ∀ i, i < n → ∀ j, j < k → (a + i) % W ≠ (b + j) % W

instance (W a n b k : Nat) : Decidable (apart W a n b k) := by
  unfold apart
  infer_instance

/-! ## Observable run -/

/-- Externally visible steps of a run. -/
inductive Event
  | malloc (size : Nat)
  | copy_tls (mem : Nat)
  | store (addr len val : Nat)
  deriving DecidableEq, Repr

/-- Machine state: memory and the events so far, oldest first. -/
structure State where
  mem : Mem
  trace : List Event

/-- A store instruction. -/
def State.store (W : Nat) (s : State) (a n v : Nat) : State :=
  { mem := storeBytes W s.mem a n v
    trace := s.trace ++ [Event.store (a % W) n (v % 256 ^ n)] }

/-- The declarations the C file takes from its environment. -/
structure Platform where
  target : Target
  /-- The constant `PTHREAD_KEYS_MAX` of `limits.h`. -/
  PTHREAD_KEYS_MAX : Nat
  __builtin_wasm_tls_size : Nat
  __builtin_wasm_tls_align : Nat
  __builtin_wasm_tls_base : Nat
  /-- Result of `__get_tp()`, the address of `__wasilibc_pthread_self`. -/
  __get_tp : Nat
  /-- Result of `malloc(size)`; `0` is the null pointer. -/
  malloc : Nat → Nat
  /-- The primitive `__copy_tls(mem)`: memory after the call and returned pointer. -/
  __copy_tls : Mem → Nat → Mem × Nat

/-- The call `malloc(size)`. -/
def State.malloc (pf : Platform) (s : State) (size : Nat) : State × Nat :=
  ({ s with trace := s.trace ++ [Event.malloc size] }, pf.malloc size % pf.target.W)

/-- The call `__copy_tls(mem)`. -/
def State.copy_tls (pf : Platform) (s : State) (mem : Nat) : State × Nat :=
  ({ mem := (pf.__copy_tls s.mem mem).1, trace := s.trace ++ [Event.copy_tls mem] },
    (pf.__copy_tls s.mem mem).2 % pf.target.W)

/-! ## Layout of `struct pthread`

Natural alignment, `int` of 4 bytes, pointers, `size_t`, `uintptr_t` and `long`
of `ptrBytes` bytes; the two bit-fields share one byte. -/

/-- Round `x` up to a multiple of the alignment `a`. -/
def alignUp (x a : Nat) : Nat := (x + a - 1) / a * a

def off_self (_t : Target) : Nat := 0
def off_prev (t : Target) : Nat := t.ptrBytes
def off_next (t : Target) : Nat := 2 * t.ptrBytes
def off_sysinfo (t : Target) : Nat := 3 * t.ptrBytes
def off_canary (t : Target) : Nat := 4 * t.ptrBytes
def off_tid (t : Target) : Nat := 5 * t.ptrBytes
def off_errno_val (t : Target) : Nat := off_tid t + 4
def off_detach_state (t : Target) : Nat := off_errno_val t + 4
def off_cancel (t : Target) : Nat := off_detach_state t + 4
def off_canceldisable (t : Target) : Nat := off_cancel t + 4
def off_cancelasync (t : Target) : Nat := off_canceldisable t + 1
def off_tsd_used (t : Target) : Nat := off_cancelasync t + 1
def off_map_base (t : Target) : Nat := alignUp (off_tsd_used t + 1) t.ptrBytes
def off_map_size (t : Target) : Nat := off_map_base t + t.ptrBytes
def off_stack (t : Target) : Nat := off_map_size t + t.ptrBytes
def off_stack_size (t : Target) : Nat := off_stack t + t.ptrBytes
def off_guard_size (t : Target) : Nat := off_stack_size t + t.ptrBytes
def off_result (t : Target) : Nat := off_guard_size t + t.ptrBytes
def off_cancelbuf (t : Target) : Nat := off_result t + t.ptrBytes
def off_tsd (t : Target) : Nat := off_cancelbuf t + t.ptrBytes
def off_robust_list_head (t : Target) : Nat := off_tsd t + t.ptrBytes
def off_robust_list_off (t : Target) : Nat := off_robust_list_head t + t.ptrBytes
def off_robust_list_pending (t : Target) : Nat := off_robust_list_off t + t.ptrBytes
def off_h_errno_val (t : Target) : Nat := off_robust_list_pending t + t.ptrBytes
def off_timer_id (t : Target) : Nat := off_h_errno_val t + 4
def off_locale (t : Target) : Nat := alignUp (off_timer_id t + 4) t.ptrBytes
def off_killlock (t : Target) : Nat := off_locale t + t.ptrBytes
def off_dlerror_buf (t : Target) : Nat := alignUp (off_killlock t + 4) t.ptrBytes
def off_stdio_locks (t : Target) : Nat := off_dlerror_buf t + t.ptrBytes

/-- Size of the structure, `sizeof(struct pthread)`. -/
def sizeof_pthread (t : Target) : Nat := off_stdio_locks t + t.ptrBytes

/-- Enumerator `DT_EXITED`. -/
def DT_EXITED : Nat := 0
/-- Enumerator `DT_EXITING`. -/
def DT_EXITING : Nat := 1
/-- Enumerator `DT_JOINABLE`. -/
def DT_JOINABLE : Nat := 2
/-- Enumerator `DT_DETACHED`. -/
def DT_DETACHED : Nat := 3

/-- Read a pointer-sized field at offset `off` of the `struct pthread` at `p`. -/
def loadField (t : Target) (m : Mem) (p off : Nat) : Nat :=
  loadBytes t.W m (addW t.W p off) t.ptrBytes

/-- Read an `int` field at offset `off` of the `struct pthread` at `p`. -/
def loadIntField (t : Target) (m : Mem) (p off : Nat) : Nat :=
  loadBytes t.W m (addW t.W p off) 4

/-! ## The function -/

/-- Local variables of `wasi_new_thread` at its end, and the final state. -/
structure Frame where
  tls_size : Nat
  tls_align : Nat
  tls_base : Nat
  self : Nat
  __pthread_tsd_size : Nat
  size : Nat
  map : Nat
  tsd : Nat
  stack : Nat
  stack_limit : Nat
  new_tls_base : Nat
  tls_offset : Nat
  new : Nat
  /-- State right after the last store into the new control block (line 97). -/
  init : State
  /-- State at the end of the function. -/
  st : State

/-- The function `wasi_new_thread(out_new_tls_base, out_new_stack)`, statement by
statement, run from state `s0`. -/
def wasi_new_thread (pf : Platform) (s0 : State) (out_new_tls_base out_new_stack : Nat) :
    Frame :=
  let t := pf.target
  let W := t.W
  let P := t.ptrBytes
  let tls_size := pf.__builtin_wasm_tls_size % W
  let tls_align := pf.__builtin_wasm_tls_align % W
  let tls_base := pf.__builtin_wasm_tls_base % W
  -- tls_size += tls_align;
  let tls_size := addW W tls_size tls_align
  -- self = __pthread_self();
  let self := pf.__get_tp % W
  -- size_t __pthread_tsd_size = sizeof(void *) * PTHREAD_KEYS_MAX;
  let __pthread_tsd_size := (P * pf.PTHREAD_KEYS_MAX) % W
  -- size_t size = ROUND(tls_size + 65536 + __pthread_tsd_size);
  let size := ROUND W (addW W (addW W tls_size 65536) __pthread_tsd_size)
  -- map = malloc(size);
  let (s1, map) := s0.malloc pf size
  -- tsd = map + size - __pthread_tsd_size;
  let tsd := subW W (addW W map size) __pthread_tsd_size
  -- stack = tsd - tls_size;
  let stack := subW W tsd tls_size
  -- stack_limit = map;
  let stack_limit := map
  -- new_tls_base = __copy_tls(tsd - tls_size);
  let (s2, new_tls_base) := s1.copy_tls pf (subW W tsd tls_size)
  -- tls_offset = new_tls_base - tls_base;
  let tls_offset := subW W new_tls_base tls_base
  -- new = (void*)((uintptr_t)self + tls_offset);
  let new := addW W self tls_offset
  -- new->map_base = map;
  let s3 := s2.store W (addW W new (off_map_base t)) P map
  -- new->map_size = size;
  let s4 := s3.store W (addW W new (off_map_size t)) P size
  -- new->stack = stack;
  let s5 := s4.store W (addW W new (off_stack t)) P stack
  -- new->stack_size = stack - stack_limit;
  let s6 := s5.store W (addW W new (off_stack_size t)) P (subW W stack stack_limit)
  -- new->guard_size = 0;
  let s7 := s6.store W (addW W new (off_guard_size t)) P 0
  -- new->self = new;
  let s8 := s7.store W (addW W new (off_self t)) P new
  -- new->tsd = (void *)tsd;
  let s9 := s8.store W (addW W new (off_tsd t)) P tsd
  -- new->detach_state = DT_DETACHED;
  let s10 := s9.store W (addW W new (off_detach_state t)) 4 DT_DETACHED
  -- new->robust_list.head = &new->robust_list.head;
  let s11 := s10.store W (addW W new (off_robust_list_head t)) P
    (addW W new (off_robust_list_head t))
  -- new->canary = self->canary;
  let s12 := s11.store W (addW W new (off_canary t)) P (loadField t s11.mem self (off_canary t))
  -- new->sysinfo = self->sysinfo;
  let s13 := s12.store W (addW W new (off_sysinfo t)) P
    (loadField t s12.mem self (off_sysinfo t))
  -- new->stack = (void *)((uintptr_t) stack & -16);
  let s14 := s13.store W (addW W new (off_stack t)) P (and_neg16 W stack)
  -- new->stack_size = stack - stack_limit;
  let s15 := s14.store W (addW W new (off_stack_size t)) P (subW W stack stack_limit)
  -- *out_new_tls_base = new_tls_base;
  let s16 := s15.store W out_new_tls_base P new_tls_base
  -- *out_new_stack = new->stack;
  let s17 := s16.store W out_new_stack P (loadField t s16.mem new (off_stack t))
  { tls_size := tls_size
    tls_align := tls_align
    tls_base := tls_base
    self := self
    __pthread_tsd_size := __pthread_tsd_size
    size := size
    map := map
    tsd := tsd
    stack := stack
    stack_limit := stack_limit
    new_tls_base := new_tls_base
    tls_offset := tls_offset
    new := new
    init := s15
    st := s17 }

/-! ## The memory effect in closed form

The stores of `wasi_new_thread`, as functions of its locals; `frame_mem` below
shows that the final memory of a run is exactly this. -/

/-- Memory after the nine stores of lines 83 to 92 (`map_base` to
`robust_list.head`). -/
def tcb_stores_head (t : Target) (m : Mem) (new map size stack stack_limit tsd : Nat) : Mem :=
  let W := t.W
  let P := t.ptrBytes
  let m := storeBytes W m (addW W new (off_map_base t)) P map
  let m := storeBytes W m (addW W new (off_map_size t)) P size
  let m := storeBytes W m (addW W new (off_stack t)) P stack
  let m := storeBytes W m (addW W new (off_stack_size t)) P (subW W stack stack_limit)
  let m := storeBytes W m (addW W new (off_guard_size t)) P 0
  let m := storeBytes W m (addW W new (off_self t)) P new
  let m := storeBytes W m (addW W new (off_tsd t)) P tsd
  let m := storeBytes W m (addW W new (off_detach_state t)) 4 DT_DETACHED
  storeBytes W m (addW W new (off_robust_list_head t)) P (addW W new (off_robust_list_head t))

/-- Memory after the copy of `canary` (line 93). -/
def tcb_stores_canary (t : Target) (m : Mem) (new map size stack stack_limit tsd self : Nat) :
    Mem :=
  let m := tcb_stores_head t m new map size stack stack_limit tsd
  storeBytes t.W m (addW t.W new (off_canary t)) t.ptrBytes (loadField t m self (off_canary t))

/-- Memory after the copy of `sysinfo` (line 94). -/
def tcb_stores_sysinfo (t : Target) (m : Mem) (new map size stack stack_limit tsd self : Nat) :
    Mem :=
  let m := tcb_stores_canary t m new map size stack stack_limit tsd self
  storeBytes t.W m (addW t.W new (off_sysinfo t)) t.ptrBytes (loadField t m self (off_sysinfo t))

/-- Memory after all thirteen stores into the new control block (lines 83 to 97). -/
def tcb_stores (t : Target) (m : Mem) (new map size stack stack_limit tsd self : Nat) : Mem :=
  let W := t.W
  let P := t.ptrBytes
  let m := tcb_stores_sysinfo t m new map size stack stack_limit tsd self
  let m := storeBytes W m (addW W new (off_stack t)) P (and_neg16 W stack)
  storeBytes W m (addW W new (off_stack_size t)) P (subW W stack stack_limit)

/-- Memory after the store to `*out_new_tls_base` (line 99). -/
def out_store_tls (t : Target) (m : Mem) (out_new_tls_base new_tls_base : Nat) : Mem :=
  storeBytes t.W m out_new_tls_base t.ptrBytes new_tls_base

/-- Memory after the store to `*out_new_stack` (line 100). -/
def out_store_stack (t : Target) (m : Mem) (out_new_stack new : Nat) : Mem :=
  storeBytes t.W m out_new_stack t.ptrBytes (loadField t m new (off_stack t))

/-- Both output slots lie outside the `struct pthread` at `new`. -/
def OutputsApart (t : Target) (new out_new_tls_base out_new_stack : Nat) : Prop :=
  apart t.W new (sizeof_pthread t) out_new_tls_base t.ptrBytes ∧
    apart t.W new (sizeof_pthread t) out_new_stack t.ptrBytes

instance (t : Target) (new o1 o2 : Nat) : Decidable (OutputsApart t new o1 o2) := by
  unfold OutputsApart
  infer_instance

/-- The word found in an output slot. -/
def loadOut (t : Target) (m : Mem) (out : Nat) : Nat :=
  loadBytes t.W m out t.ptrBytes

/-! ## Write set -/

/-- The byte address `x` lies in the (wrapping) range of `n` bytes at `a`; this
is the condition under which `storeBytes` changes the byte at `x`. -/
def inRange (W a n x : Nat) : Prop :=
  x < W ∧ (x + W - a % W) % W < n

instance (W a n x : Nat) : Decidable (inRange W a n x) := by
  unfold inRange
  infer_instance

/-- Address and length of the eleven fields of the new control block that
`wasi_new_thread` initialises, and of the two output slots. -/
def written_ranges (t : Target) (new out_new_tls_base out_new_stack : Nat) :
    List (Nat × Nat) :=
  [(addW t.W new (off_map_base t), t.ptrBytes),
    (addW t.W new (off_map_size t), t.ptrBytes),
    (addW t.W new (off_stack t), t.ptrBytes),
    (addW t.W new (off_stack_size t), t.ptrBytes),
    (addW t.W new (off_guard_size t), t.ptrBytes),
    (addW t.W new (off_self t), t.ptrBytes),
    (addW t.W new (off_tsd t), t.ptrBytes),
    (addW t.W new (off_detach_state t), 4),
    (addW t.W new (off_robust_list_head t), t.ptrBytes),
    (addW t.W new (off_canary t), t.ptrBytes),
    (addW t.W new (off_sysinfo t), t.ptrBytes),
    (out_new_tls_base, t.ptrBytes),
    (out_new_stack, t.ptrBytes)]

/-! ## Variant with a single stack assignment

The design note of the specification collapses the duplicated assignments of
`stack` and `stack_size` into one step.  `wasi_new_thread_single` is
`wasi_new_thread` without the first pair (lines 85 and 86): `stack` is assigned
once, rounded down to a multiple of 16, and `stack_size` once. -/

/-- The variant of `wasi_new_thread` that assigns `stack` and `stack_size` once. -/
def wasi_new_thread_single (pf : Platform) (s0 : State)
    (out_new_tls_base out_new_stack : Nat) : Frame :=
  let t := pf.target
  let W := t.W
  let P := t.ptrBytes
  let tls_size := pf.__builtin_wasm_tls_size % W
  let tls_align := pf.__builtin_wasm_tls_align % W
  let tls_base := pf.__builtin_wasm_tls_base % W
  let tls_size := addW W tls_size tls_align
  let self := pf.__get_tp % W
  let __pthread_tsd_size := (P * pf.PTHREAD_KEYS_MAX) % W
  let size := ROUND W (addW W (addW W tls_size 65536) __pthread_tsd_size)
  let (s1, map) := s0.malloc pf size
  let tsd := subW W (addW W map size) __pthread_tsd_size
  let stack := subW W tsd tls_size
  let stack_limit := map
  let (s2, new_tls_base) := s1.copy_tls pf (subW W tsd tls_size)
  let tls_offset := subW W new_tls_base tls_base
  let new := addW W self tls_offset
  let s3 := s2.store W (addW W new (off_map_base t)) P map
  let s4 := s3.store W (addW W new (off_map_size t)) P size
  let s7 := s4.store W (addW W new (off_guard_size t)) P 0
  let s8 := s7.store W (addW W new (off_self t)) P new
  let s9 := s8.store W (addW W new (off_tsd t)) P tsd
  let s10 := s9.store W (addW W new (off_detach_state t)) 4 DT_DETACHED
  let s11 := s10.store W (addW W new (off_robust_list_head t)) P
    (addW W new (off_robust_list_head t))
  let s12 := s11.store W (addW W new (off_canary t)) P (loadField t s11.mem self (off_canary t))
  let s13 := s12.store W (addW W new (off_sysinfo t)) P
    (loadField t s12.mem self (off_sysinfo t))
  -- the single alignment step
  let s14 := s13.store W (addW W new (off_stack t)) P (and_neg16 W stack)
  let s15 := s14.store W (addW W new (off_stack_size t)) P (subW W stack stack_limit)
  let s16 := s15.store W out_new_tls_base P new_tls_base
  let s17 := s16.store W out_new_stack P (loadField t s16.mem new (off_stack t))
  { tls_size := tls_size
    tls_align := tls_align
    tls_base := tls_base
    self := self
    __pthread_tsd_size := __pthread_tsd_size
    size := size
    map := map
    tsd := tsd
    stack := stack
    stack_limit := stack_limit
    new_tls_base := new_tls_base
    tls_offset := tls_offset
    new := new
    init := s15
    st := s17 }

/-- Memory after the seven stores of the variant that precede the copy of
`canary`. -/
def tcb_stores_head_single (t : Target) (m : Mem) (new map size tsd : Nat) : Mem :=
  let W := t.W
  let P := t.ptrBytes
  let m := storeBytes W m (addW W new (off_map_base t)) P map
  let m := storeBytes W m (addW W new (off_map_size t)) P size
  let m := storeBytes W m (addW W new (off_guard_size t)) P 0
  let m := storeBytes W m (addW W new (off_self t)) P new
  let m := storeBytes W m (addW W new (off_tsd t)) P tsd
  let m := storeBytes W m (addW W new (off_detach_state t)) 4 DT_DETACHED
  storeBytes W m (addW W new (off_robust_list_head t)) P (addW W new (off_robust_list_head t))

/-- Memory after all eleven stores of the variant into the new control block. -/
def tcb_stores_single (t : Target) (m : Mem) (new map size stack stack_limit tsd self : Nat) :
    Mem :=
  let W := t.W
  let P := t.ptrBytes
  let m := tcb_stores_head_single t m new map size tsd
  let m := storeBytes W m (addW W new (off_canary t)) P (loadField t m self (off_canary t))
  let m := storeBytes W m (addW W new (off_sysinfo t)) P (loadField t m self (off_sysinfo t))
  let m := storeBytes W m (addW W new (off_stack t)) P (and_neg16 W stack)
  storeBytes W m (addW W new (off_stack_size t)) P (subW W stack stack_limit)

/-! ## Sample runs -/

/-- A stand-in for the TLS copy primitive, used in the sample runs: it rounds the
destination up to the next multiple of the alignment, installs an all-zero image
of `tls_size` bytes there and returns its address. -/
def sample_copy_tls (tls_size tls_align : Nat) (m : Mem) (mem : Nat) : Mem × Nat :=
  let p := mem + tls_align - (mem + tls_align) % tls_align
  (fun x => if p ≤ x ∧ x < p + tls_size then 0 else m x, p)

/-- Initial state of the sample runs: every byte holds the low byte of its
address, no event yet. -/
def sample_state : State := { mem := fun x => x % 256, trace := [] }

/-- A wasm32 platform with a TLS template of 240 bytes aligned to 16; the
creating control block sits 16 bytes into the TLS image. -/
def pf_sample : Platform :=
  { target := .wasm32
    PTHREAD_KEYS_MAX := 128
    __builtin_wasm_tls_size := 240
    __builtin_wasm_tls_align := 16
    __builtin_wasm_tls_base := 4096
    __get_tp := 4112
    malloc := fun _ => 1048576
    __copy_tls := sample_copy_tls 240 16 }

/-- A wasm32 platform with a TLS template of 120 bytes aligned to 4, so that the
padded TLS size 124 is not a multiple of 16. -/
def pf_unaligned : Platform :=
  { target := .wasm32
    PTHREAD_KEYS_MAX := 128
    __builtin_wasm_tls_size := 120
    __builtin_wasm_tls_align := 4
    __builtin_wasm_tls_base := 4096
    __get_tp := 4096
    malloc := fun _ => 1048576
    __copy_tls := sample_copy_tls 120 4 }

/-- The platform `pf_unaligned` with an allocator that fails. -/
def pf_null_malloc : Platform :=
  { pf_unaligned with malloc := fun _ => 0 }

/-- A wasm32 platform whose size sum is the largest `size_t` value. -/
def pf_huge_tls : Platform :=
  { target := .wasm32
    PTHREAD_KEYS_MAX := 128
    __builtin_wasm_tls_size := 4294901231
    __builtin_wasm_tls_align := 16
    __builtin_wasm_tls_base := 4096
    __get_tp := 4096
    malloc := fun _ => 1048576
    __copy_tls := sample_copy_tls 0 16 }

/-- A wasm32 platform whose copy primitive returns the last but one address of
the destination slice. -/
def pf_late_base : Platform :=
  { target := .wasm32
    PTHREAD_KEYS_MAX := 128
    __builtin_wasm_tls_size := 1000
    __builtin_wasm_tls_align := 16
    __builtin_wasm_tls_base := 4096
    __get_tp := 4896
    malloc := fun _ => 1048576
    __copy_tls := fun m mem => (m, mem + 1015) }

/-- The platform of the concrete scenario: template size 256, alignment 16,
128 keys, pointers of 8 bytes; everything else is arbitrary. -/
def pf_scenario (tls_base tp : Nat) (mal : Nat → Nat) (cp : Mem → Nat → Mem × Nat) :
    Platform :=
  { target := .wasm64
    PTHREAD_KEYS_MAX := 128
    __builtin_wasm_tls_size := 256
    __builtin_wasm_tls_align := 16
    __builtin_wasm_tls_base := tls_base
    __get_tp := tp
    malloc := mal
    __copy_tls := cp }

/-! ## Machine word facts -/

theorem W_wasm32 : Target.W .wasm32 = 4294967296 := by decide

theorem W_wasm64 : Target.W .wasm64 = 18446744073709551616 := by decide

theorem W_pos (t : Target) : 0 < t.W := by
  cases t <;> decide

theorem ptrBytes_le_W (t : Target) : t.ptrBytes ≤ t.W := by
  cases t <;> decide

theorem pow_ptrBytes (t : Target) : 256 ^ t.ptrBytes = t.W := by
  cases t <;> decide

theorem land_neg16 (w x : Nat) (hw : 4 ≤ w) (hx : x < 2 ^ w) :
    x &&& (2 ^ w - 16) = 16 * (x / 16) := by
  apply Nat.eq_of_testBit_eq
  intro i
  have h16 : 2 ^ w - 16 = 2 ^ 4 * (2 ^ (w - 4) - 1) := by
    have : 2 ^ w = 2 ^ 4 * 2 ^ (w - 4) := by
      rw [← pow_add]; congr 1; omega
    rw [this, Nat.mul_sub]; norm_num
  have h16b : 16 * (x / 16) = 2 ^ 4 * (x / 2 ^ 4) := by norm_num
  rw [Nat.testBit_land, h16, h16b, Nat.testBit_mul_pow_two, Nat.testBit_mul_pow_two,
    Nat.testBit_two_pow_sub_one, ← Nat.shiftRight_eq_div_pow, Nat.testBit_shiftRight]
  by_cases h4 : 4 ≤ i
  · by_cases hi : i < w
    · have : i - 4 < w - 4 := by omega
      simp [h4, this]
    · have : ¬ (i - 4 < w - 4) := by omega
      have hxi : x.testBit i = false := by
        apply Nat.testBit_lt_two_pow
        calc x < 2 ^ w := hx
          _ ≤ 2 ^ i := Nat.pow_le_pow_right (by norm_num) (by omega)
      simp [h4, this, hxi]
  · simp [h4]

theorem and_neg16_eq (t : Target) (p : Nat) :
    and_neg16 t.W p = 16 * (p % t.W / 16) := by
  unfold and_neg16 Target.W
  apply land_neg16
  · cases t <;> decide
  · exact Nat.mod_lt _ (Nat.pos_pow_of_pos _ (by norm_num))

theorem ROUND_eq (t : Target) (x : Nat) :
    ROUND t.W x = 16 * ((x + 15) % t.W / 16) := by
  unfold ROUND Target.W
  apply land_neg16
  · cases t <;> decide
  · exact Nat.mod_lt _ (Nat.pos_pow_of_pos _ (by norm_num))

theorem add_mod_inj (W p x y : Nat) (hx : x < W) (hy : y < W)
    (h : (p + x) % W = (p + y) % W) : x = y := by
  have h1 : x ≡ y [MOD W] := Nat.ModEq.add_left_cancel' p h
  have h2 : x % W = y % W := h1
  rwa [Nat.mod_eq_of_lt hx, Nat.mod_eq_of_lt hy] at h2

/-- Relocation without wrap-around: translating `self` by `ntb - tb` lands at
`ntb + (self - tb)`. -/
theorem reloc_eq (W self tb ntb : Nat) (hs : self < W) (htb : tb < W) (hn : ntb < W)
    (h : tb ≤ self) (hfit : ntb + (self - tb) < W) :
    addW W self (subW W ntb tb) = ntb + (self - tb) := by
  unfold addW subW
  rw [Nat.mod_eq_of_lt htb]
  by_cases hc : tb ≤ ntb
  · have e : ntb + W - tb = (ntb - tb) + W := by omega
    rw [e, Nat.add_mod_right, Nat.mod_eq_of_lt (show ntb - tb < W by omega)]
    have e2 : self + (ntb - tb) = ntb + (self - tb) := by omega
    rw [e2]
    exact Nat.mod_eq_of_lt hfit
  · rw [Nat.mod_eq_of_lt (show ntb + W - tb < W by omega)]
    have e2 : self + (ntb + W - tb) = ntb + (self - tb) + W := by omega
    rw [e2, Nat.add_mod_right]
    exact Nat.mod_eq_of_lt hfit

/-- A translation by `ntb - tb` that fixes `self` has `ntb = tb`. -/
theorem reloc_fixed (W self tb ntb : Nat) (hs : self < W) (htb : tb < W) (hn : ntb < W)
    (h : addW W self (subW W ntb tb) = self) : ntb = tb := by
  have hW : 0 < W := by omega
  unfold addW at h
  have hlt : subW W ntb tb < W := Nat.mod_lt _ hW
  have h0 : subW W ntb tb = 0 :=
    add_mod_inj W self (subW W ntb tb) 0 hlt hW
      (by rw [h, Nat.add_zero, Nat.mod_eq_of_lt hs])
  unfold subW at h0
  rw [Nat.mod_eq_of_lt htb] at h0
  by_cases hc : tb ≤ ntb
  · have e : ntb + W - tb = (ntb - tb) + W := by omega
    rw [e, Nat.add_mod_right, Nat.mod_eq_of_lt (show ntb - tb < W by omega)] at h0
    omega
  · rw [Nat.mod_eq_of_lt (show ntb + W - tb < W by omega)] at h0
    omega

/-- A value below `2 * W` is reduced modulo `W` by at most one subtraction. -/
theorem mod_two_cases (W x : Nat) (h : x < 2 * W) :
    (x < W ∧ x % W = x) ∨ (W ≤ x ∧ x % W = x - W) := by
  by_cases hx : x < W
  · exact Or.inl ⟨hx, Nat.mod_eq_of_lt hx⟩
  · refine Or.inr ⟨by omega, ?_⟩
    rw [Nat.mod_eq_sub_mod (by omega)]
    exact Nat.mod_eq_of_lt (by omega)

/-- Translating by `ntb - tb` keeps the distance to the TLS base. -/
theorem reloc_offset (W self tb ntb : Nat) (hs : self < W) (htb : tb < W) (hn : ntb < W) :
    subW W (addW W self (subW W ntb tb)) ntb = subW W self tb := by
  unfold addW subW
  rw [Nat.mod_eq_of_lt htb, Nat.mod_eq_of_lt hn]
  have h1 := mod_two_cases W (ntb + W - tb) (by omega)
  have h2 := mod_two_cases W (self + W - tb) (by omega)
  generalize (ntb + W - tb) % W = o at h1 ⊢
  generalize (self + W - tb) % W = r at h2 ⊢
  have ho : o < W := by omega
  have h3 := mod_two_cases W (self + o) (by omega)
  generalize (self + o) % W = n at h3 ⊢
  have h4 := mod_two_cases W (n + W - ntb) (by omega)
  generalize (n + W - ntb) % W = l at h4 ⊢
  omega

/-- Offsets inside a field add to the field offset. -/
theorem addW_add (W p off j : Nat) : (addW W p off + j) % W = (p + (off + j)) % W := by
  unfold addW
  rw [Nat.add_mod, Nat.mod_mod, ← Nat.add_mod, Nat.add_assoc]

/-- Rounding down to a multiple of 16 is idempotent. -/
theorem and_neg16_idem (t : Target) (x : Nat) :
    and_neg16 t.W (and_neg16 t.W x) = and_neg16 t.W x := by
  rw [and_neg16_eq t (and_neg16 t.W x), and_neg16_eq t x]
  have hx := Nat.mod_lt x (W_pos t)
  rw [Nat.mod_eq_of_lt (show 16 * (x % t.W / 16) < t.W by omega)]
  omega

/-! ## Memory facts -/

theorem mod_offset_same (W a i : Nat) (hi : i < W) :
    ((a + i) % W + W - a % W) % W = i := by
  have hW : 0 < W := by omega
  have hr : a % W < W := Nat.mod_lt _ hW
  rw [Nat.add_mod a i W, Nat.mod_eq_of_lt hi]
  generalize a % W = r at hr
  by_cases h : r + i < W
  · rw [Nat.mod_eq_of_lt h]
    have : r + i + W - r = i + W := by omega
    rw [this, Nat.add_mod_right, Nat.mod_eq_of_lt hi]
  · have h2 : (r + i) % W = r + i - W := by
      rw [Nat.mod_eq_sub_mod (by omega)]
      exact Nat.mod_eq_of_lt (by omega)
    rw [h2]
    have : r + i - W + W - r = i := by omega
    rw [this, Nat.mod_eq_of_lt hi]

theorem mod_offset_back (W b x : Nat) (hx : x < W) :
    (b + (x + W - b % W) % W) % W = x := by
  have hW : 0 < W := by omega
  have hr : b % W < W := Nat.mod_lt _ hW
  rw [Nat.add_mod b _ W, Nat.mod_mod]
  generalize b % W = r at hr
  by_cases h : r ≤ x
  · have h2 : (x + W - r) % W = x - r := by
      have : x + W - r = (x - r) + W := by omega
      rw [this, Nat.add_mod_right, Nat.mod_eq_of_lt (by omega)]
    rw [h2]
    have : r + (x - r) = x := by omega
    rw [this, Nat.mod_eq_of_lt hx]
  · have h2 : (x + W - r) % W = x + W - r := Nat.mod_eq_of_lt (by omega)
    rw [h2]
    have : r + (x + W - r) = x + W := by omega
    rw [this, Nat.add_mod_right, Nat.mod_eq_of_lt hx]

theorem loadBytes_congr (W : Nat) (m1 m2 : Mem) (n : Nat) :
    ∀ a, (∀ i, i < n → m1 ((a + i) % W) = m2 ((a + i) % W)) →
      loadBytes W m1 a n = loadBytes W m2 a n := by
  induction n with
  | zero => intro a _; rfl
  | succ n ih =>
    intro a h
    have h0 := h 0 (by omega)
    have hs : ∀ i, i < n → m1 ((a + 1 + i) % W) = m2 ((a + 1 + i) % W) := by
      intro i hi
      have := h (i + 1) (by omega)
      rwa [show a + (i + 1) = a + 1 + i by omega] at this
    simp only [loadBytes]
    rw [ih (a + 1) hs]
    simp only [Nat.add_zero] at h0
    rw [h0]

theorem loadBytes_of_bytes (W : Nat) (m : Mem) (n : Nat) :
    ∀ a v, (∀ i, i < n → m ((a + i) % W) = v / 256 ^ i % 256) →
      loadBytes W m a n = v % 256 ^ n := by
  induction n with
  | zero => intro a v _; simp [loadBytes, Nat.mod_one]
  | succ n ih =>
    intro a v h
    have h0 := h 0 (by omega)
    have hs : ∀ i, i < n → m ((a + 1 + i) % W) = v / 256 / 256 ^ i % 256 := by
      intro i hi
      have := h (i + 1) (by omega)
      rw [show a + (i + 1) = a + 1 + i by omega] at this
      rw [this, Nat.div_div_eq_div_mul, pow_succ']
    simp only [loadBytes]
    rw [ih (a + 1) (v / 256) hs]
    simp only [Nat.add_zero, pow_zero, Nat.div_one] at h0
    rw [h0, Nat.mod_mod, pow_succ', Nat.mod_mul]

theorem loadBytes_lt (W : Nat) (m : Mem) (n : Nat) : ∀ a, loadBytes W m a n < 256 ^ n := by
  induction n with
  | zero => intro a; simp [loadBytes]
  | succ n ih =>
    intro a
    have h1 := ih (a + 1)
    have h2 : m (a % W) % 256 < 256 := Nat.mod_lt _ (by norm_num)
    simp only [loadBytes, pow_succ']
    omega

theorem loadBytes_storeBytes_same (W : Nat) (m : Mem) (a n v : Nat) (hn : n ≤ W) :
    loadBytes W (storeBytes W m a n v) a n = v % 256 ^ n := by
  apply loadBytes_of_bytes
  intro i hi
  have hiW : i < W := by omega
  have hlt : (a + i) % W < W := Nat.mod_lt _ (by omega)
  simp only [storeBytes, mod_offset_same W a i hiW, hlt, hi, and_self, if_true]

theorem loadBytes_storeBytes_apart (W : Nat) (m : Mem) (a n b k v : Nat)
    (h : apart W a n b k) :
    loadBytes W (storeBytes W m b k v) a n = loadBytes W m a n := by
  apply loadBytes_congr
  intro i hi
  simp only [storeBytes]
  split
  · next hc =>
    exfalso
    exact h i hi _ hc.2 (mod_offset_back W b _ hc.1).symm
  · rfl

/-- Two fields of one structure at `p` do not overlap when their offset ranges
are disjoint. -/
theorem apart_fields (W p o1 n1 o2 n2 : Nat)
    (hd : o1 + n1 ≤ o2 ∨ o2 + n2 ≤ o1) (h1 : o1 + n1 ≤ W) (h2 : o2 + n2 ≤ W) :
    apart W (addW W p o1) n1 (addW W p o2) n2 := by
  intro i hi j hj h
  unfold addW at h
  rw [Nat.add_mod, Nat.mod_mod, ← Nat.add_mod, Nat.add_mod ((p + o2) % W), Nat.mod_mod,
    ← Nat.add_mod, Nat.add_assoc, Nat.add_assoc] at h
  have := add_mod_inj W p (o1 + i) (o2 + j) (by omega) (by omega) h
  omega

/-- Sub-ranges of two non-overlapping ranges do not overlap. -/
theorem apart_sub (W a n b k o1 n1 o2 n2 : Nat) (h : apart W a n b k)
    (h1 : o1 + n1 ≤ n) (h2 : o2 + n2 ≤ k) :
    apart W (addW W a o1) n1 (addW W b o2) n2 := by
  intro i hi j hj hc
  unfold addW at hc
  rw [Nat.add_mod, Nat.mod_mod, ← Nat.add_mod, Nat.add_mod ((b + o2) % W), Nat.mod_mod,
    ← Nat.add_mod, Nat.add_assoc, Nat.add_assoc] at hc
  exact h (o1 + i) (by omega) (o2 + j) (by omega) hc

/-- Reading one field after a store to another field of the same structure. -/
theorem load_store_field (W : Nat) (m : Mem) (p o1 n1 o2 n2 v : Nat)
    (hd : o1 + n1 ≤ o2 ∨ o2 + n2 ≤ o1) (h1 : o1 + n1 ≤ W) (h2 : o2 + n2 ≤ W) :
    loadBytes W (storeBytes W m (addW W p o2) n2 v) (addW W p o1) n1 =
      loadBytes W m (addW W p o1) n1 :=
  loadBytes_storeBytes_apart W m _ _ _ _ v (apart_fields W p o1 n1 o2 n2 hd h1 h2)

/-- Reading a field of one structure after a store to a field of another one
that does not overlap it. -/
theorem load_store_other (W : Nat) (m : Mem) (p n q k o1 n1 o2 n2 v : Nat)
    (h : apart W p n q k) (h1 : o1 + n1 ≤ n) (h2 : o2 + n2 ≤ k) :
    loadBytes W (storeBytes W m (addW W q o2) n2 v) (addW W p o1) n1 =
      loadBytes W m (addW W p o1) n1 :=
  loadBytes_storeBytes_apart W m _ _ _ _ v (apart_sub W p n q k o1 n1 o2 n2 h h1 h2)

/-- A store to a range outside the structure at `p` leaves its fields unchanged. -/
theorem load_store_outside (W : Nat) (m : Mem) (p n o k v o1 n1 : Nat)
    (h : apart W p n o k) (h1 : o1 + n1 ≤ n) :
    loadBytes W (storeBytes W m o k v) (addW W p o1) n1 = loadBytes W m (addW W p o1) n1 := by
  apply loadBytes_storeBytes_apart
  intro i hi j hj hc
  unfold addW at hc
  rw [Nat.add_mod, Nat.mod_mod, ← Nat.add_mod, Nat.add_assoc] at hc
  exact h (o1 + i) (by omega) j hj hc

/-- Two memories that agree on the bytes of the structure at `p` give the same
field values. -/
theorem loadField_congr (t : Target) (m1 m2 : Mem) (p off : Nat)
    (h : ∀ i, i < sizeof_pthread t → m1 ((p + i) % t.W) = m2 ((p + i) % t.W))
    (hoff : off + t.ptrBytes ≤ sizeof_pthread t) :
    loadField t m1 p off = loadField t m2 p off := by
  unfold loadField
  apply loadBytes_congr
  intro i hi
  unfold addW
  rw [Nat.add_mod, Nat.mod_mod, ← Nat.add_mod, Nat.add_assoc]
  exact h (off + i) (by omega)

/-! ## The run in closed form -/

theorem frame_tls_size (pf : Platform) (s0 : State) (o1 o2 : Nat) :
    (wasi_new_thread pf s0 o1 o2).tls_size =
      addW pf.target.W (pf.__builtin_wasm_tls_size % pf.target.W)
        (pf.__builtin_wasm_tls_align % pf.target.W) := rfl

theorem frame_tsd_size (pf : Platform) (s0 : State) (o1 o2 : Nat) :
    (wasi_new_thread pf s0 o1 o2).__pthread_tsd_size =
      (pf.target.ptrBytes * pf.PTHREAD_KEYS_MAX) % pf.target.W := rfl

theorem frame_size (pf : Platform) (s0 : State) (o1 o2 : Nat) :
    (wasi_new_thread pf s0 o1 o2).size =
      ROUND pf.target.W (addW pf.target.W
        (addW pf.target.W (wasi_new_thread pf s0 o1 o2).tls_size 65536)
        (wasi_new_thread pf s0 o1 o2).__pthread_tsd_size) := rfl

theorem frame_map (pf : Platform) (s0 : State) (o1 o2 : Nat) :
    (wasi_new_thread pf s0 o1 o2).map =
      pf.malloc (wasi_new_thread pf s0 o1 o2).size % pf.target.W := rfl

theorem frame_tsd (pf : Platform) (s0 : State) (o1 o2 : Nat) :
    (wasi_new_thread pf s0 o1 o2).tsd =
      subW pf.target.W
        (addW pf.target.W (wasi_new_thread pf s0 o1 o2).map (wasi_new_thread pf s0 o1 o2).size)
        (wasi_new_thread pf s0 o1 o2).__pthread_tsd_size := rfl

theorem frame_stack (pf : Platform) (s0 : State) (o1 o2 : Nat) :
    (wasi_new_thread pf s0 o1 o2).stack =
      subW pf.target.W (wasi_new_thread pf s0 o1 o2).tsd
        (wasi_new_thread pf s0 o1 o2).tls_size := rfl

theorem frame_stack_limit (pf : Platform) (s0 : State) (o1 o2 : Nat) :
    (wasi_new_thread pf s0 o1 o2).stack_limit = (wasi_new_thread pf s0 o1 o2).map := rfl

theorem frame_self (pf : Platform) (s0 : State) (o1 o2 : Nat) :
    (wasi_new_thread pf s0 o1 o2).self = pf.__get_tp % pf.target.W := rfl

theorem frame_tls_base (pf : Platform) (s0 : State) (o1 o2 : Nat) :
    (wasi_new_thread pf s0 o1 o2).tls_base = pf.__builtin_wasm_tls_base % pf.target.W := rfl

theorem frame_new_tls_base (pf : Platform) (s0 : State) (o1 o2 : Nat) :
    (wasi_new_thread pf s0 o1 o2).new_tls_base =
      (pf.__copy_tls s0.mem (wasi_new_thread pf s0 o1 o2).stack).2 % pf.target.W := rfl

theorem frame_tls_offset (pf : Platform) (s0 : State) (o1 o2 : Nat) :
    (wasi_new_thread pf s0 o1 o2).tls_offset =
      subW pf.target.W (wasi_new_thread pf s0 o1 o2).new_tls_base
        (wasi_new_thread pf s0 o1 o2).tls_base := rfl

theorem frame_new (pf : Platform) (s0 : State) (o1 o2 : Nat) :
    (wasi_new_thread pf s0 o1 o2).new =
      addW pf.target.W (wasi_new_thread pf s0 o1 o2).self
        (wasi_new_thread pf s0 o1 o2).tls_offset := rfl

theorem frame_init_mem (pf : Platform) (s0 : State) (o1 o2 : Nat) :
    (wasi_new_thread pf s0 o1 o2).init.mem =
      tcb_stores pf.target (pf.__copy_tls s0.mem (wasi_new_thread pf s0 o1 o2).stack).1
        (wasi_new_thread pf s0 o1 o2).new (wasi_new_thread pf s0 o1 o2).map
        (wasi_new_thread pf s0 o1 o2).size (wasi_new_thread pf s0 o1 o2).stack
        (wasi_new_thread pf s0 o1 o2).stack_limit (wasi_new_thread pf s0 o1 o2).tsd
        (wasi_new_thread pf s0 o1 o2).self := rfl

theorem frame_mem (pf : Platform) (s0 : State) (o1 o2 : Nat) :
    (wasi_new_thread pf s0 o1 o2).st.mem =
      out_store_stack pf.target
        (out_store_tls pf.target (wasi_new_thread pf s0 o1 o2).init.mem o1
          (wasi_new_thread pf s0 o1 o2).new_tls_base)
        o2 (wasi_new_thread pf s0 o1 o2).new := rfl

theorem frame_trace (pf : Platform) (s0 : State) (o1 o2 : Nat) :
    ∃ stores : List Event,
      (wasi_new_thread pf s0 o1 o2).st.trace =
        s0.trace ++ Event.malloc (wasi_new_thread pf s0 o1 o2).size ::
          Event.copy_tls (wasi_new_thread pf s0 o1 o2).stack :: stores ∧
      ∀ e ∈ stores, ∃ a n v, e = Event.store a n v := by
  simp only [wasi_new_thread, State.store, State.malloc, State.copy_tls, List.append_assoc,
    List.singleton_append, List.cons_append, List.nil_append]
  refine ⟨_, rfl, ?_⟩
  intro e he
  simp only [List.mem_cons, List.mem_singleton, List.not_mem_nil, or_false] at he
  rcases he with h | h | h | h | h | h | h | h | h | h | h | h | h | h | h <;>
    exact ⟨_, _, _, h⟩

theorem frame_lt (pf : Platform) (s0 : State) (o1 o2 : Nat) :
    (wasi_new_thread pf s0 o1 o2).new < pf.target.W ∧
    (wasi_new_thread pf s0 o1 o2).map < pf.target.W ∧
    (wasi_new_thread pf s0 o1 o2).tsd < pf.target.W ∧
    (wasi_new_thread pf s0 o1 o2).stack < pf.target.W ∧
    (wasi_new_thread pf s0 o1 o2).self < pf.target.W ∧
    (wasi_new_thread pf s0 o1 o2).tls_base < pf.target.W ∧
    (wasi_new_thread pf s0 o1 o2).new_tls_base < pf.target.W ∧
    (wasi_new_thread pf s0 o1 o2).size < pf.target.W := by
  have hW := W_pos pf.target
  refine ⟨Nat.mod_lt _ hW, Nat.mod_lt _ hW, Nat.mod_lt _ hW, Nat.mod_lt _ hW, Nat.mod_lt _ hW,
    Nat.mod_lt _ hW, Nat.mod_lt _ hW, ?_⟩
  rw [frame_size, ROUND_eq]
  have := Nat.mod_lt (addW pf.target.W (addW pf.target.W (wasi_new_thread pf s0 o1 o2).tls_size 65536)
    (wasi_new_thread pf s0 o1 o2).__pthread_tsd_size + 15) hW
  omega

/-- Without wrap-around the argument of `ROUND` is the plain sum. -/
theorem frame_sum (pf : Platform) (s0 : State) (o1 o2 : Nat)
    (h : pf.__builtin_wasm_tls_size + pf.__builtin_wasm_tls_align + 65536 +
      pf.target.ptrBytes * pf.PTHREAD_KEYS_MAX + 15 < pf.target.W) :
    addW pf.target.W (addW pf.target.W (wasi_new_thread pf s0 o1 o2).tls_size 65536)
        (wasi_new_thread pf s0 o1 o2).__pthread_tsd_size =
      pf.__builtin_wasm_tls_size + pf.__builtin_wasm_tls_align + 65536 +
        pf.target.ptrBytes * pf.PTHREAD_KEYS_MAX := by
  rw [frame_tls_size, frame_tsd_size]
  unfold addW
  generalize pf.target.W = W at *
  generalize pf.__builtin_wasm_tls_size = s at *
  generalize pf.__builtin_wasm_tls_align = a at *
  generalize pf.target.ptrBytes * pf.PTHREAD_KEYS_MAX = k at *
  rw [Nat.mod_eq_of_lt (show s < W by omega), Nat.mod_eq_of_lt (show a < W by omega),
    Nat.mod_eq_of_lt (show s + a < W by omega), Nat.mod_eq_of_lt (show k < W by omega),
    Nat.mod_eq_of_lt (show s + a + 65536 < W by omega),
    Nat.mod_eq_of_lt (show s + a + 65536 + k < W by omega)]

theorem frame_layout (pf : Platform) (s0 : State) (o1 o2 : Nat)
    (h1 : pf.__builtin_wasm_tls_size + pf.__builtin_wasm_tls_align + 65536 +
      pf.target.ptrBytes * pf.PTHREAD_KEYS_MAX + 15 < pf.target.W)
    (h2 : (wasi_new_thread pf s0 o1 o2).map + (wasi_new_thread pf s0 o1 o2).size < pf.target.W) :
    (wasi_new_thread pf s0 o1 o2).tls_size =
        pf.__builtin_wasm_tls_size + pf.__builtin_wasm_tls_align ∧
      (wasi_new_thread pf s0 o1 o2).__pthread_tsd_size =
        pf.target.ptrBytes * pf.PTHREAD_KEYS_MAX ∧
      (wasi_new_thread pf s0 o1 o2).tsd + (wasi_new_thread pf s0 o1 o2).__pthread_tsd_size =
        (wasi_new_thread pf s0 o1 o2).map + (wasi_new_thread pf s0 o1 o2).size ∧
      (wasi_new_thread pf s0 o1 o2).stack + (wasi_new_thread pf s0 o1 o2).tls_size =
        (wasi_new_thread pf s0 o1 o2).tsd ∧
      (wasi_new_thread pf s0 o1 o2).map + 65536 ≤ (wasi_new_thread pf s0 o1 o2).stack ∧
      (wasi_new_thread pf s0 o1 o2).stack ≤ (wasi_new_thread pf s0 o1 o2).map + 65536 + 15 := by
  have e1 := frame_tls_size pf s0 o1 o2
  have e2 := frame_tsd_size pf s0 o1 o2
  have e3 := frame_size pf s0 o1 o2
  have e4 := frame_tsd pf s0 o1 o2
  have e5 := frame_stack pf s0 o1 o2
  rw [ROUND_eq] at e3
  generalize (wasi_new_thread pf s0 o1 o2).tls_size = tls at *
  generalize (wasi_new_thread pf s0 o1 o2).__pthread_tsd_size = tsz at *
  generalize (wasi_new_thread pf s0 o1 o2).size = size at *
  generalize (wasi_new_thread pf s0 o1 o2).map = map at *
  generalize (wasi_new_thread pf s0 o1 o2).tsd = tsd at *
  generalize (wasi_new_thread pf s0 o1 o2).stack = stack at *
  generalize pf.__builtin_wasm_tls_size = s at *
  generalize pf.__builtin_wasm_tls_align = a at *
  generalize pf.PTHREAD_KEYS_MAX = keys at *
  generalize pf.target = t at *
  have key : ∀ W P : Nat, 15 < W → s + a + 65536 + P * keys + 15 < W → map + size < W →
      tls = addW W (s % W) (a % W) → tsz = P * keys % W →
      size = 16 * ((addW W (addW W tls 65536) tsz + 15) % W / 16) →
      tsd = subW W (addW W map size) tsz → stack = subW W tsd tls →
      tls = s + a ∧ tsz = P * keys ∧ tsd + tsz = map + size ∧ stack + tls = tsd ∧
        map + 65536 ≤ stack ∧ stack ≤ map + 65536 + 15 := by
    intro W P hW h1 h2 e1 e2 e3 e4 e5
    unfold addW at e1 e3 e4
    unfold subW at e4 e5
    rw [Nat.mod_eq_of_lt (show s < W by omega), Nat.mod_eq_of_lt (show a < W by omega),
      Nat.mod_eq_of_lt (show s + a < W by omega)] at e1
    rw [Nat.mod_eq_of_lt (show P * keys < W by omega)] at e2
    subst e1 e2
    rw [Nat.mod_eq_of_lt (show s + a + 65536 < W by omega),
      Nat.mod_eq_of_lt (show s + a + 65536 + P * keys < W by omega),
      Nat.mod_eq_of_lt (show s + a + 65536 + P * keys + 15 < W by omega)] at e3
    have hsz : P * keys ≤ size := by omega
    rw [Nat.mod_eq_of_lt (show P * keys < W by omega)] at e4
    rw [Nat.mod_eq_of_lt (show s + a < W by omega)] at e5
    have e4b : tsd = map + size - P * keys := by
      rw [Nat.mod_eq_of_lt h2] at e4
      rw [e4, show map + size + W - P * keys = (map + size - P * keys) + W by omega,
        Nat.add_mod_right]
      exact Nat.mod_eq_of_lt (by omega)
    have e5b : stack = tsd - (s + a) := by
      rw [e5, show tsd + W - (s + a) = (tsd - (s + a)) + W by omega, Nat.add_mod_right]
      exact Nat.mod_eq_of_lt (by omega)
    omega
  cases t
  · exact key _ _ (by decide) h1 h2 e1 e2 e3 e4 e5
  · exact key _ _ (by decide) h1 h2 e1 e2 e3 e4 e5

/-! ## Reading the new control block back -/

theorem field_in_struct (t : Target) :
    off_map_base t + t.ptrBytes ≤ sizeof_pthread t ∧
    off_map_size t + t.ptrBytes ≤ sizeof_pthread t ∧
    off_stack t + t.ptrBytes ≤ sizeof_pthread t ∧
    off_stack_size t + t.ptrBytes ≤ sizeof_pthread t ∧
    off_guard_size t + t.ptrBytes ≤ sizeof_pthread t ∧
    off_self t + t.ptrBytes ≤ sizeof_pthread t ∧
    off_tsd t + t.ptrBytes ≤ sizeof_pthread t ∧
    off_detach_state t + 4 ≤ sizeof_pthread t ∧
    off_robust_list_head t + t.ptrBytes ≤ sizeof_pthread t ∧
    off_canary t + t.ptrBytes ≤ sizeof_pthread t ∧
    off_sysinfo t + t.ptrBytes ≤ sizeof_pthread t := by
  cases t <;> decide

theorem tcb_stores_map_base (t : Target) (m : Mem) (new map size stack sl tsd self : Nat) :
    loadField t (tcb_stores t m new map size stack sl tsd self) new (off_map_base t) =
      map % t.W := by
  rw [← pow_ptrBytes]
  cases t <;>
    simp only [tcb_stores, tcb_stores_sysinfo, tcb_stores_canary, tcb_stores_head, loadField] <;>
    simp (disch := decide) only [load_store_field, loadBytes_storeBytes_same]

theorem tcb_stores_map_size (t : Target) (m : Mem) (new map size stack sl tsd self : Nat) :
    loadField t (tcb_stores t m new map size stack sl tsd self) new (off_map_size t) =
      size % t.W := by
  rw [← pow_ptrBytes]
  cases t <;>
    simp only [tcb_stores, tcb_stores_sysinfo, tcb_stores_canary, tcb_stores_head, loadField] <;>
    simp (disch := decide) only [load_store_field, loadBytes_storeBytes_same]

theorem tcb_stores_stack (t : Target) (m : Mem) (new map size stack sl tsd self : Nat) :
    loadField t (tcb_stores t m new map size stack sl tsd self) new (off_stack t) =
      and_neg16 t.W stack := by
  have hlt : and_neg16 t.W stack < t.W := by
    rw [and_neg16_eq]
    have := Nat.mod_lt stack (W_pos t)
    omega
  rw [← pow_ptrBytes] at hlt
  cases t <;>
    simp only [tcb_stores, tcb_stores_sysinfo, tcb_stores_canary, tcb_stores_head, loadField]
      at hlt ⊢ <;>
    simp (disch := decide) only [load_store_field, loadBytes_storeBytes_same] <;>
    exact Nat.mod_eq_of_lt hlt

theorem tcb_stores_stack_size (t : Target) (m : Mem) (new map size stack sl tsd self : Nat) :
    loadField t (tcb_stores t m new map size stack sl tsd self) new (off_stack_size t) =
      subW t.W stack sl := by
  have hlt : subW t.W stack sl < t.W := Nat.mod_lt _ (W_pos t)
  rw [← pow_ptrBytes] at hlt
  cases t <;>
    simp only [tcb_stores, tcb_stores_sysinfo, tcb_stores_canary, tcb_stores_head, loadField]
      at hlt ⊢ <;>
    simp (disch := decide) only [load_store_field, loadBytes_storeBytes_same] <;>
    exact Nat.mod_eq_of_lt hlt

theorem tcb_stores_guard_size (t : Target) (m : Mem) (new map size stack sl tsd self : Nat) :
    loadField t (tcb_stores t m new map size stack sl tsd self) new (off_guard_size t) = 0 := by
  cases t <;>
    simp only [tcb_stores, tcb_stores_sysinfo, tcb_stores_canary, tcb_stores_head, loadField] <;>
    simp (disch := decide) only [load_store_field, loadBytes_storeBytes_same] <;>
    rfl

theorem tcb_stores_self (t : Target) (m : Mem) (new map size stack sl tsd self : Nat) :
    loadField t (tcb_stores t m new map size stack sl tsd self) new (off_self t) =
      new % t.W := by
  rw [← pow_ptrBytes]
  cases t <;>
    simp only [tcb_stores, tcb_stores_sysinfo, tcb_stores_canary, tcb_stores_head, loadField] <;>
    simp (disch := decide) only [load_store_field, loadBytes_storeBytes_same]

theorem tcb_stores_tsd (t : Target) (m : Mem) (new map size stack sl tsd self : Nat) :
    loadField t (tcb_stores t m new map size stack sl tsd self) new (off_tsd t) =
      tsd % t.W := by
  rw [← pow_ptrBytes]
  cases t <;>
    simp only [tcb_stores, tcb_stores_sysinfo, tcb_stores_canary, tcb_stores_head, loadField] <;>
    simp (disch := decide) only [load_store_field, loadBytes_storeBytes_same]

theorem tcb_stores_detach_state (t : Target) (m : Mem) (new map size stack sl tsd self : Nat) :
    loadIntField t (tcb_stores t m new map size stack sl tsd self) new (off_detach_state t) =
      DT_DETACHED := by
  cases t <;>
    simp only [tcb_stores, tcb_stores_sysinfo, tcb_stores_canary, tcb_stores_head,
      loadIntField] <;>
    simp (disch := decide) only [load_store_field, loadBytes_storeBytes_same] <;>
    rfl

theorem tcb_stores_robust_list_head (t : Target) (m : Mem)
    (new map size stack sl tsd self : Nat) :
    loadField t (tcb_stores t m new map size stack sl tsd self) new (off_robust_list_head t) =
      addW t.W new (off_robust_list_head t) := by
  have hlt : addW t.W new (off_robust_list_head t) < t.W := Nat.mod_lt _ (W_pos t)
  rw [← pow_ptrBytes] at hlt
  cases t <;>
    simp only [tcb_stores, tcb_stores_sysinfo, tcb_stores_canary, tcb_stores_head, loadField]
      at hlt ⊢ <;>
    simp (disch := decide) only [load_store_field, loadBytes_storeBytes_same] <;>
    exact Nat.mod_eq_of_lt hlt

theorem tcb_stores_canary_eq (t : Target) (m : Mem) (new map size stack sl tsd self : Nat)
    (h : apart t.W self (sizeof_pthread t) new (sizeof_pthread t)) :
    loadField t (tcb_stores t m new map size stack sl tsd self) new (off_canary t) =
      loadField t m self (off_canary t) := by
  have hlt := loadBytes_lt t.W m t.ptrBytes (addW t.W self (off_canary t))
  cases t <;>
    simp only [tcb_stores, tcb_stores_sysinfo, tcb_stores_canary, tcb_stores_head, loadField]
      at hlt ⊢ <;>
    simp (disch := decide) only [load_store_field, loadBytes_storeBytes_same,
      load_store_other _ _ _ _ _ _ _ _ _ _ _ h] <;>
    exact Nat.mod_eq_of_lt hlt

theorem tcb_stores_sysinfo_eq (t : Target) (m : Mem) (new map size stack sl tsd self : Nat)
    (h : apart t.W self (sizeof_pthread t) new (sizeof_pthread t)) :
    loadField t (tcb_stores t m new map size stack sl tsd self) new (off_sysinfo t) =
      loadField t m self (off_sysinfo t) := by
  have hlt := loadBytes_lt t.W m t.ptrBytes (addW t.W self (off_sysinfo t))
  cases t <;>
    simp only [tcb_stores, tcb_stores_sysinfo, tcb_stores_canary, tcb_stores_head, loadField]
      at hlt ⊢ <;>
    simp (disch := decide) only [load_store_field, loadBytes_storeBytes_same,
      load_store_other _ _ _ _ _ _ _ _ _ _ _ h] <;>
    exact Nat.mod_eq_of_lt hlt

/-- The two output stores leave every field of the new control block unchanged
when the output slots lie outside it. -/
theorem out_stores_field (t : Target) (m : Mem) (new o1 o2 ntb off n : Nat)
    (hout : OutputsApart t new o1 o2) (hoff : off + n ≤ sizeof_pthread t) :
    loadBytes t.W (out_store_stack t (out_store_tls t m o1 ntb) o2 new) (addW t.W new off) n =
      loadBytes t.W m (addW t.W new off) n := by
  unfold out_store_stack out_store_tls
  rw [load_store_outside t.W _ new _ o2 _ _ off n hout.2 hoff,
    load_store_outside t.W _ new _ o1 _ _ off n hout.1 hoff]

/-- The output stores do not change a field of the new control block when the
output slots lie outside it. -/
theorem frame_field (pf : Platform) (s0 : State) (o1 o2 off : Nat)
    (hout : OutputsApart pf.target (wasi_new_thread pf s0 o1 o2).new o1 o2)
    (hoff : off + pf.target.ptrBytes ≤ sizeof_pthread pf.target) :
    loadField pf.target (wasi_new_thread pf s0 o1 o2).st.mem (wasi_new_thread pf s0 o1 o2).new off =
      loadField pf.target (wasi_new_thread pf s0 o1 o2).init.mem
        (wasi_new_thread pf s0 o1 o2).new off := by
  rw [frame_mem]
  exact out_stores_field pf.target _ _ o1 o2 _ off _ hout hoff

/-- The word left in `*out_new_stack`, when the slot `out_new_tls_base` lies
outside the new control block. -/
theorem frame_out_stack (pf : Platform) (s0 : State) (o1 o2 : Nat)
    (h : apart pf.target.W (wasi_new_thread pf s0 o1 o2).new (sizeof_pthread pf.target) o1
      pf.target.ptrBytes) :
    loadOut pf.target (wasi_new_thread pf s0 o1 o2).st.mem o2 =
      and_neg16 pf.target.W (wasi_new_thread pf s0 o1 o2).stack := by
  have hlt : and_neg16 pf.target.W (wasi_new_thread pf s0 o1 o2).stack < pf.target.W := by
    rw [and_neg16_eq]
    have := Nat.mod_lt (wasi_new_thread pf s0 o1 o2).stack (W_pos pf.target)
    omega
  rw [frame_mem]
  unfold loadOut out_store_stack out_store_tls
  rw [loadBytes_storeBytes_same _ _ _ _ _ (ptrBytes_le_W pf.target)]
  unfold loadField
  rw [load_store_outside pf.target.W _ _ _ o1 _ _ (off_stack pf.target) _ h
    (field_in_struct pf.target).2.2.1]
  have := tcb_stores_stack pf.target (pf.__copy_tls s0.mem (wasi_new_thread pf s0 o1 o2).stack).1
    (wasi_new_thread pf s0 o1 o2).new (wasi_new_thread pf s0 o1 o2).map
    (wasi_new_thread pf s0 o1 o2).size (wasi_new_thread pf s0 o1 o2).stack
    (wasi_new_thread pf s0 o1 o2).stack_limit (wasi_new_thread pf s0 o1 o2).tsd
    (wasi_new_thread pf s0 o1 o2).self
  unfold loadField at this
  rw [frame_init_mem, this, pow_ptrBytes]
  exact Nat.mod_eq_of_lt hlt

/-- The output stores do not change an `int` field of the new control block
when the output slots lie outside it. -/
theorem frame_int_field (pf : Platform) (s0 : State) (o1 o2 off : Nat)
    (hout : OutputsApart pf.target (wasi_new_thread pf s0 o1 o2).new o1 o2)
    (hoff : off + 4 ≤ sizeof_pthread pf.target) :
    loadIntField pf.target (wasi_new_thread pf s0 o1 o2).st.mem
        (wasi_new_thread pf s0 o1 o2).new off =
      loadIntField pf.target (wasi_new_thread pf s0 o1 o2).init.mem
        (wasi_new_thread pf s0 o1 o2).new off := by
  rw [frame_mem]
  exact out_stores_field pf.target _ _ o1 o2 _ off _ hout hoff

/-! ## Bytes outside the write set -/

theorem storeBytes_outside (W : Nat) (m : Mem) (a n v x : Nat) (h : ¬ inRange W a n x) :
    storeBytes W m a n v x = m x := by
  unfold storeBytes
  exact if_neg h

/-- Two memories that agree at `x` outside the stored range agree at `x` after
the same store. -/
theorem storeBytes_congr_at (W : Nat) (m m2 : Mem) (a n v x : Nat)
    (h : ¬ inRange W a n x → m x = m2 x) :
    storeBytes W m a n v x = storeBytes W m2 a n v x := by
  by_cases hr : inRange W a n x
  · have hr2 : x < W ∧ (x + W - a % W) % W < n := hr
    unfold storeBytes
    rw [if_pos hr2, if_pos hr2]
  · rw [storeBytes_outside _ _ _ _ _ _ hr, storeBytes_outside _ _ _ _ _ _ hr]
    exact h hr

/-- A byte of a range is the range start plus an offset below the length. -/
theorem inRange_offset (W a n x : Nat) (h : inRange W a n x) :
    ∃ j, j < n ∧ x = (a + j) % W :=
  ⟨(x + W - a % W) % W, h.2, (mod_offset_back W a x h.1).symm⟩

/-- A byte of the structure at `p` lies outside every field of a structure at
`q` that does not overlap it. -/
theorem not_inRange_field (W p n q k off len i : Nat) (h : apart W p n q k)
    (hoff : off + len ≤ k) (hi : i < n) :
    ¬ inRange W (addW W q off) len ((p + i) % W) := by
  intro hr
  obtain ⟨j, hj, hx⟩ := inRange_offset W _ _ _ hr
  rw [addW_add] at hx
  exact h i hi (off + j) (by omega) hx

/-- A byte of the structure at `p` lies outside a range that does not overlap
it. -/
theorem not_inRange_slot (W p n o k i : Nat) (h : apart W p n o k) (hi : i < n) :
    ¬ inRange W o k ((p + i) % W) := by
  intro hr
  obtain ⟨j, hj, hx⟩ := inRange_offset W _ _ _ hr
  exact h i hi j hj hx

/-- Outside the write set the final memory is the memory returned by the copy
primitive. -/
theorem frame_mem_outside (pf : Platform) (s0 : State) (o1 o2 x : Nat)
    (hx : ∀ r ∈ written_ranges pf.target (wasi_new_thread pf s0 o1 o2).new o1 o2,
      ¬ inRange pf.target.W r.1 r.2 x) :
    (wasi_new_thread pf s0 o1 o2).st.mem x =
      (pf.__copy_tls s0.mem (wasi_new_thread pf s0 o1 o2).stack).1 x := by
  rw [frame_mem, frame_init_mem]
  generalize (wasi_new_thread pf s0 o1 o2).new = new at hx ⊢
  have h1 := hx (addW pf.target.W new (off_map_base pf.target), pf.target.ptrBytes)
    (by simp [written_ranges])
  have h2 := hx (addW pf.target.W new (off_map_size pf.target), pf.target.ptrBytes)
    (by simp [written_ranges])
  have h3 := hx (addW pf.target.W new (off_stack pf.target), pf.target.ptrBytes)
    (by simp [written_ranges])
  have h4 := hx (addW pf.target.W new (off_stack_size pf.target), pf.target.ptrBytes)
    (by simp [written_ranges])
  have h5 := hx (addW pf.target.W new (off_guard_size pf.target), pf.target.ptrBytes)
    (by simp [written_ranges])
  have h6 := hx (addW pf.target.W new (off_self pf.target), pf.target.ptrBytes)
    (by simp [written_ranges])
  have h7 := hx (addW pf.target.W new (off_tsd pf.target), pf.target.ptrBytes)
    (by simp [written_ranges])
  have h8 := hx (addW pf.target.W new (off_detach_state pf.target), 4)
    (by simp [written_ranges])
  have h9 := hx (addW pf.target.W new (off_robust_list_head pf.target), pf.target.ptrBytes)
    (by simp [written_ranges])
  have h10 := hx (addW pf.target.W new (off_canary pf.target), pf.target.ptrBytes)
    (by simp [written_ranges])
  have h11 := hx (addW pf.target.W new (off_sysinfo pf.target), pf.target.ptrBytes)
    (by simp [written_ranges])
  have h12 := hx (o1, pf.target.ptrBytes) (by simp [written_ranges])
  have h13 := hx (o2, pf.target.ptrBytes) (by simp [written_ranges])
  simp only [out_store_stack, out_store_tls, tcb_stores, tcb_stores_sysinfo, tcb_stores_canary,
    tcb_stores_head]
  rw [storeBytes_outside _ _ _ _ _ _ h13, storeBytes_outside _ _ _ _ _ _ h12,
    storeBytes_outside _ _ _ _ _ _ h4, storeBytes_outside _ _ _ _ _ _ h3,
    storeBytes_outside _ _ _ _ _ _ h11, storeBytes_outside _ _ _ _ _ _ h10,
    storeBytes_outside _ _ _ _ _ _ h9, storeBytes_outside _ _ _ _ _ _ h8,
    storeBytes_outside _ _ _ _ _ _ h7, storeBytes_outside _ _ _ _ _ _ h6,
    storeBytes_outside _ _ _ _ _ _ h5, storeBytes_outside _ _ _ _ _ _ h4,
    storeBytes_outside _ _ _ _ _ _ h3, storeBytes_outside _ _ _ _ _ _ h2,
    storeBytes_outside _ _ _ _ _ _ h1]

/-- The events of a run, in order: the allocation request, the call of the copy
primitive, thirteen stores into the new control block and the two output
stores. -/
theorem frame_trace_eq (pf : Platform) (s0 : State) (o1 o2 : Nat) :
    ∃ v1 v2 v3 v4 v5 v6 v7 v8 v9 v10 v11 v12 v13 v14 v15 : Nat,
      (wasi_new_thread pf s0 o1 o2).st.trace =
        s0.trace ++
          [Event.malloc (wasi_new_thread pf s0 o1 o2).size,
            Event.copy_tls (wasi_new_thread pf s0 o1 o2).stack,
            Event.store (addW pf.target.W (wasi_new_thread pf s0 o1 o2).new
              (off_map_base pf.target) % pf.target.W) pf.target.ptrBytes v1,
            Event.store (addW pf.target.W (wasi_new_thread pf s0 o1 o2).new
              (off_map_size pf.target) % pf.target.W) pf.target.ptrBytes v2,
            Event.store (addW pf.target.W (wasi_new_thread pf s0 o1 o2).new
              (off_stack pf.target) % pf.target.W) pf.target.ptrBytes v3,
            Event.store (addW pf.target.W (wasi_new_thread pf s0 o1 o2).new
              (off_stack_size pf.target) % pf.target.W) pf.target.ptrBytes v4,
            Event.store (addW pf.target.W (wasi_new_thread pf s0 o1 o2).new
              (off_guard_size pf.target) % pf.target.W) pf.target.ptrBytes v5,
            Event.store (addW pf.target.W (wasi_new_thread pf s0 o1 o2).new
              (off_self pf.target) % pf.target.W) pf.target.ptrBytes v6,
            Event.store (addW pf.target.W (wasi_new_thread pf s0 o1 o2).new
              (off_tsd pf.target) % pf.target.W) pf.target.ptrBytes v7,
            Event.store (addW pf.target.W (wasi_new_thread pf s0 o1 o2).new
              (off_detach_state pf.target) % pf.target.W) 4 v8,
            Event.store (addW pf.target.W (wasi_new_thread pf s0 o1 o2).new
              (off_robust_list_head pf.target) % pf.target.W) pf.target.ptrBytes v9,
            Event.store (addW pf.target.W (wasi_new_thread pf s0 o1 o2).new
              (off_canary pf.target) % pf.target.W) pf.target.ptrBytes v10,
            Event.store (addW pf.target.W (wasi_new_thread pf s0 o1 o2).new
              (off_sysinfo pf.target) % pf.target.W) pf.target.ptrBytes v11,
            Event.store (addW pf.target.W (wasi_new_thread pf s0 o1 o2).new
              (off_stack pf.target) % pf.target.W) pf.target.ptrBytes v12,
            Event.store (addW pf.target.W (wasi_new_thread pf s0 o1 o2).new
              (off_stack_size pf.target) % pf.target.W) pf.target.ptrBytes v13,
            Event.store (o1 % pf.target.W) pf.target.ptrBytes v14,
            Event.store (o2 % pf.target.W) pf.target.ptrBytes v15] := by
  simp only [wasi_new_thread, State.store, State.malloc, State.copy_tls, List.append_assoc,
    List.singleton_append, List.cons_append, List.nil_append]
  exact ⟨_, _, _, _, _, _, _, _, _, _, _, _, _, _, _, rfl⟩

/-- The store events of a run all target the write set. -/
theorem frame_trace_ranges (pf : Platform) (s0 : State) (o1 o2 : Nat) :
    ∃ stores : List Event,
      (wasi_new_thread pf s0 o1 o2).st.trace =
        s0.trace ++ Event.malloc (wasi_new_thread pf s0 o1 o2).size ::
          Event.copy_tls (wasi_new_thread pf s0 o1 o2).stack :: stores ∧
      ∀ e ∈ stores, ∃ r ∈ written_ranges pf.target (wasi_new_thread pf s0 o1 o2).new o1 o2,
        ∃ v, e = Event.store (r.1 % pf.target.W) r.2 v := by
  obtain ⟨v1, v2, v3, v4, v5, v6, v7, v8, v9, v10, v11, v12, v13, v14, v15, htr⟩ :=
    frame_trace_eq pf s0 o1 o2
  refine ⟨_, htr, ?_⟩
  intro e he
  simp only [List.mem_cons, List.mem_singleton, List.not_mem_nil, or_false] at he
  rcases he with h | h | h | h | h | h | h | h | h | h | h | h | h | h | h
  · exact ⟨(addW pf.target.W (wasi_new_thread pf s0 o1 o2).new (off_map_base pf.target), pf.target.ptrBytes),
      by simp only [written_ranges, List.mem_cons, true_or, or_true], _, h⟩
  · exact ⟨(addW pf.target.W (wasi_new_thread pf s0 o1 o2).new (off_map_size pf.target), pf.target.ptrBytes),
      by simp only [written_ranges, List.mem_cons, true_or, or_true], _, h⟩
  · exact ⟨(addW pf.target.W (wasi_new_thread pf s0 o1 o2).new (off_stack pf.target), pf.target.ptrBytes),
      by simp only [written_ranges, List.mem_cons, true_or, or_true], _, h⟩
  · exact ⟨(addW pf.target.W (wasi_new_thread pf s0 o1 o2).new (off_stack_size pf.target), pf.target.ptrBytes),
      by simp only [written_ranges, List.mem_cons, true_or, or_true], _, h⟩
  · exact ⟨(addW pf.target.W (wasi_new_thread pf s0 o1 o2).new (off_guard_size pf.target), pf.target.ptrBytes),
      by simp only [written_ranges, List.mem_cons, true_or, or_true], _, h⟩
  · exact ⟨(addW pf.target.W (wasi_new_thread pf s0 o1 o2).new (off_self pf.target), pf.target.ptrBytes),
      by simp only [written_ranges, List.mem_cons, true_or, or_true], _, h⟩
  · exact ⟨(addW pf.target.W (wasi_new_thread pf s0 o1 o2).new (off_tsd pf.target), pf.target.ptrBytes),
      by simp only [written_ranges, List.mem_cons, true_or, or_true], _, h⟩
  · exact ⟨(addW pf.target.W (wasi_new_thread pf s0 o1 o2).new (off_detach_state pf.target), 4),
      by simp only [written_ranges, List.mem_cons, true_or, or_true], _, h⟩
  · exact ⟨(addW pf.target.W (wasi_new_thread pf s0 o1 o2).new (off_robust_list_head pf.target), pf.target.ptrBytes),
      by simp only [written_ranges, List.mem_cons, true_or, or_true], _, h⟩
  · exact ⟨(addW pf.target.W (wasi_new_thread pf s0 o1 o2).new (off_canary pf.target), pf.target.ptrBytes),
      by simp only [written_ranges, List.mem_cons, true_or, or_true], _, h⟩
  · exact ⟨(addW pf.target.W (wasi_new_thread pf s0 o1 o2).new (off_sysinfo pf.target), pf.target.ptrBytes),
      by simp only [written_ranges, List.mem_cons, true_or, or_true], _, h⟩
  · exact ⟨(addW pf.target.W (wasi_new_thread pf s0 o1 o2).new (off_stack pf.target), pf.target.ptrBytes),
      by simp only [written_ranges, List.mem_cons, true_or, or_true], _, h⟩
  · exact ⟨(addW pf.target.W (wasi_new_thread pf s0 o1 o2).new (off_stack_size pf.target), pf.target.ptrBytes),
      by simp only [written_ranges, List.mem_cons, true_or, or_true], _, h⟩
  · exact ⟨(o1, pf.target.ptrBytes),
      by simp only [written_ranges, List.mem_cons, List.mem_singleton, true_or, or_true], _, h⟩
  · exact ⟨(o2, pf.target.ptrBytes),
      by simp only [written_ranges, List.mem_cons, List.mem_singleton, true_or, or_true], _, h⟩

/-- The bytes of a structure at `p` lie outside the write set when the structure
overlaps neither the new control block nor the output slots. -/
theorem outside_write_set (t : Target) (p new o1 o2 i : Nat)
    (hsep : apart t.W p (sizeof_pthread t) new (sizeof_pthread t))
    (hout : OutputsApart t p o1 o2) (hi : i < sizeof_pthread t) :
    ∀ r ∈ written_ranges t new o1 o2, ¬ inRange t.W r.1 r.2 ((p + i) % t.W) := by
  have hf := field_in_struct t
  intro r hr
  simp only [written_ranges, List.mem_cons, List.mem_singleton, List.not_mem_nil, or_false] at hr
  rcases hr with rfl | rfl | rfl | rfl | rfl | rfl | rfl | rfl | rfl | rfl | rfl | rfl | rfl
  · exact not_inRange_field _ _ _ _ _ _ _ _ hsep hf.1 hi
  · exact not_inRange_field _ _ _ _ _ _ _ _ hsep hf.2.1 hi
  · exact not_inRange_field _ _ _ _ _ _ _ _ hsep hf.2.2.1 hi
  · exact not_inRange_field _ _ _ _ _ _ _ _ hsep hf.2.2.2.1 hi
  · exact not_inRange_field _ _ _ _ _ _ _ _ hsep hf.2.2.2.2.1 hi
  · exact not_inRange_field _ _ _ _ _ _ _ _ hsep hf.2.2.2.2.2.1 hi
  · exact not_inRange_field _ _ _ _ _ _ _ _ hsep hf.2.2.2.2.2.2.1 hi
  · exact not_inRange_field _ _ _ _ _ _ _ _ hsep hf.2.2.2.2.2.2.2.1 hi
  · exact not_inRange_field _ _ _ _ _ _ _ _ hsep hf.2.2.2.2.2.2.2.2.1 hi
  · exact not_inRange_field _ _ _ _ _ _ _ _ hsep hf.2.2.2.2.2.2.2.2.2.1 hi
  · exact not_inRange_field _ _ _ _ _ _ _ _ hsep hf.2.2.2.2.2.2.2.2.2.2 hi
  · exact not_inRange_slot _ _ _ _ _ _ hout.1 hi
  · exact not_inRange_slot _ _ _ _ _ _ hout.2 hi

/-! ## The variant with a single stack assignment -/

theorem single_init_mem (pf : Platform) (s0 : State) (o1 o2 : Nat) :
    (wasi_new_thread_single pf s0 o1 o2).init.mem =
      tcb_stores_single pf.target
        (pf.__copy_tls s0.mem (wasi_new_thread pf s0 o1 o2).stack).1
        (wasi_new_thread pf s0 o1 o2).new (wasi_new_thread pf s0 o1 o2).map
        (wasi_new_thread pf s0 o1 o2).size (wasi_new_thread pf s0 o1 o2).stack
        (wasi_new_thread pf s0 o1 o2).stack_limit (wasi_new_thread pf s0 o1 o2).tsd
        (wasi_new_thread pf s0 o1 o2).self := rfl

theorem single_mem (pf : Platform) (s0 : State) (o1 o2 : Nat) :
    (wasi_new_thread_single pf s0 o1 o2).st.mem =
      out_store_stack pf.target
        (out_store_tls pf.target (wasi_new_thread_single pf s0 o1 o2).init.mem o1
          (wasi_new_thread pf s0 o1 o2).new_tls_base)
        o2 (wasi_new_thread pf s0 o1 o2).new := rfl

/-- The stores before the copy of `canary` do not change what is read from
another structure that does not overlap the new control block. -/
theorem head_load_other (t : Target) (m : Mem) (new map size stack sl tsd self off : Nat)
    (h : apart t.W self (sizeof_pthread t) new (sizeof_pthread t))
    (hoff : off + t.ptrBytes ≤ sizeof_pthread t) :
    loadField t (tcb_stores_head t m new map size stack sl tsd) self off =
      loadField t m self off := by
  cases t <;>
    simp only [tcb_stores_head, loadField] <;>
    simp (disch := decide) only [load_store_other _ _ _ _ _ _ _ _ _ _ _ h hoff]

theorem head_single_load_other (t : Target) (m : Mem) (new map size tsd self off : Nat)
    (h : apart t.W self (sizeof_pthread t) new (sizeof_pthread t))
    (hoff : off + t.ptrBytes ≤ sizeof_pthread t) :
    loadField t (tcb_stores_head_single t m new map size tsd) self off =
      loadField t m self off := by
  cases t <;>
    simp only [tcb_stores_head_single, loadField] <;>
    simp (disch := decide) only [load_store_other _ _ _ _ _ _ _ _ _ _ _ h hoff]

/-- Dropping the first assignments of `stack` and `stack_size` does not change
the memory after the stores into the new control block, when the structure
read for `canary` and `sysinfo` does not overlap it. -/
theorem tcb_stores_single_eq (t : Target) (m : Mem) (new map size stack sl tsd self : Nat)
    (h : apart t.W self (sizeof_pthread t) new (sizeof_pthread t)) :
    tcb_stores_single t m new map size stack sl tsd self =
      tcb_stores t m new map size stack sl tsd self := by
  have hf := field_in_struct t
  have hc := hf.2.2.2.2.2.2.2.2.2.1
  have hs := hf.2.2.2.2.2.2.2.2.2.2
  have c1 := head_load_other t m new map size stack sl tsd self _ h hc
  have c2 := head_single_load_other t m new map size tsd self _ h hc
  have d1 : loadField t (storeBytes t.W (tcb_stores_head t m new map size stack sl tsd)
      (addW t.W new (off_canary t)) t.ptrBytes (loadField t m self (off_canary t))) self
      (off_sysinfo t) = loadField t m self (off_sysinfo t) := by
    unfold loadField
    rw [load_store_other _ _ _ _ _ _ _ _ _ _ _ h hs hc]
    exact head_load_other t m new map size stack sl tsd self _ h hs
  have d2 : loadField t (storeBytes t.W (tcb_stores_head_single t m new map size tsd)
      (addW t.W new (off_canary t)) t.ptrBytes (loadField t m self (off_canary t))) self
      (off_sysinfo t) = loadField t m self (off_sysinfo t) := by
    unfold loadField
    rw [load_store_other _ _ _ _ _ _ _ _ _ _ _ h hs hc]
    exact head_single_load_other t m new map size tsd self _ h hs
  simp only [tcb_stores_single, tcb_stores, tcb_stores_sysinfo, tcb_stores_canary]
  rw [c1, c2, d1, d2]
  funext x
  simp only [tcb_stores_head, tcb_stores_head_single]
  apply storeBytes_congr_at
  intro h4
  apply storeBytes_congr_at
  intro h3
  apply storeBytes_congr_at
  intro _
  apply storeBytes_congr_at
  intro _
  apply storeBytes_congr_at
  intro _
  apply storeBytes_congr_at
  intro _
  apply storeBytes_congr_at
  intro _
  apply storeBytes_congr_at
  intro _
  apply storeBytes_congr_at
  intro _
  rw [storeBytes_outside _ _ _ _ _ _ h4, storeBytes_outside _ _ _ _ _ _ h3]

/-! ## Facts about the sample run -/

/-- In the sample run the output slots 512 and 516 lie outside the new control
block. -/
theorem sample_outputs_apart :
    OutputsApart pf_sample.target (wasi_new_thread pf_sample sample_state 512 516).new 512 516 := by
  have hn : (wasi_new_thread pf_sample sample_state 512 516).new = 1114144 := by decide
  rw [hn]
  constructor <;>
  · intro i hi j hj
    have h1 : sizeof_pthread pf_sample.target = 108 := by decide
    have h2 : pf_sample.target.ptrBytes = 4 := by decide
    have h3 : pf_sample.target.W = 4294967296 := by decide
    rw [h1] at hi
    rw [h2] at hj
    rw [h3]
    omega

/-- In the sample run the creating and the new control block do not overlap. -/
theorem sample_tcbs_apart :
    apart pf_sample.target.W (wasi_new_thread pf_sample sample_state 512 516).self
      (sizeof_pthread pf_sample.target) (wasi_new_thread pf_sample sample_state 512 516).new
      (sizeof_pthread pf_sample.target) := by
  have hn : (wasi_new_thread pf_sample sample_state 512 516).new = 1114144 := by decide
  have hs : (wasi_new_thread pf_sample sample_state 512 516).self = 4112 := by decide
  have h1 : sizeof_pthread pf_sample.target = 108 := by decide
  have h3 : pf_sample.target.W = 4294967296 := by decide
  rw [hn, hs, h1, h3]
  intro i hi j hj
  omega

/-- In the sample run the copy primitive leaves the creating control block
unchanged. -/
theorem sample_copy_keeps_self :
    ∀ i, i < sizeof_pthread pf_sample.target →
      (pf_sample.__copy_tls sample_state.mem
          (wasi_new_thread pf_sample sample_state 512 516).stack).1
          (((wasi_new_thread pf_sample sample_state 512 516).self + i) % pf_sample.target.W) =
        sample_state.mem
          (((wasi_new_thread pf_sample sample_state 512 516).self + i) % pf_sample.target.W) := by
  have hd : (wasi_new_thread pf_sample sample_state 512 516).stack = 1114112 := by decide
  have hs : (wasi_new_thread pf_sample sample_state 512 516).self = 4112 := by decide
  have h1 : sizeof_pthread pf_sample.target = 108 := by decide
  have h3 : pf_sample.target.W = 4294967296 := by decide
  rw [hd, hs, h1, h3]
  intro i hi
  have hx : (4112 + i) % 4294967296 = 4112 + i := Nat.mod_eq_of_lt (by omega)
  rw [hx]
  show (if 1114112 + 16 - (1114112 + 16) % 16 ≤ 4112 + i ∧
      4112 + i < 1114112 + 16 - (1114112 + 16) % 16 + 240 then 0
    else sample_state.mem (4112 + i)) = sample_state.mem (4112 + i)
  rw [if_neg (by omega)]

/-! ## Claims -/

/-- C1. The run from `pf_unaligned` (padded TLS size 124, allocation at 1048576):
the new control block records `stack` = 1114112 and `stack_size` = 65540, while
`stack` minus the stack limit is 65536.  The recorded `stack_size` is the
distance from the unrounded region base 1114116 to the stack limit, so the stack
extent `[stack - stack_size, stack)` recorded in the block starts below the
recorded `map_base`. -/
theorem C1_stack_size_from_unrounded_base :
    loadField .wasm32 (wasi_new_thread pf_unaligned sample_state 512 516).st.mem
        (wasi_new_thread pf_unaligned sample_state 512 516).new (off_stack .wasm32) = 1114112 ∧
      loadField .wasm32 (wasi_new_thread pf_unaligned sample_state 512 516).st.mem
        (wasi_new_thread pf_unaligned sample_state 512 516).new (off_stack_size .wasm32) = 65540 ∧
      loadField .wasm32 (wasi_new_thread pf_unaligned sample_state 512 516).st.mem
        (wasi_new_thread pf_unaligned sample_state 512 516).new (off_map_base .wasm32) = 1048576 ∧
      (wasi_new_thread pf_unaligned sample_state 512 516).stack_limit = 1048576 ∧
      (wasi_new_thread pf_unaligned sample_state 512 516).stack = 1114116 ∧
      loadField .wasm32 (wasi_new_thread pf_unaligned sample_state 512 516).st.mem
          (wasi_new_thread pf_unaligned sample_state 512 516).new (off_stack_size .wasm32) ≠
        loadField .wasm32 (wasi_new_thread pf_unaligned sample_state 512 516).st.mem
          (wasi_new_thread pf_unaligned sample_state 512 516).new (off_stack .wasm32) -
        (wasi_new_thread pf_unaligned sample_state 512 516).stack_limit ∧
      loadField .wasm32 (wasi_new_thread pf_unaligned sample_state 512 516).st.mem
          (wasi_new_thread pf_unaligned sample_state 512 516).new (off_stack .wasm32) -
        loadField .wasm32 (wasi_new_thread pf_unaligned sample_state 512 516).st.mem
          (wasi_new_thread pf_unaligned sample_state 512 516).new (off_stack_size .wasm32) <
        loadField .wasm32 (wasi_new_thread pf_unaligned sample_state 512 516).st.mem
          (wasi_new_thread pf_unaligned sample_state 512 516).new (off_map_base .wasm32) := by
  decide

/-- C2. The run from `pf_null_malloc`, whose allocator returns the null pointer:
the function goes on with `map = 0`, calls the copy primitive on address 65540,
performs all thirteen stores into a control block at 65544 and writes both
output slots (here at 512 and 516). -/
theorem C2_null_allocation_not_checked :
    (wasi_new_thread pf_null_malloc sample_state 512 516).map = 0 ∧
      (wasi_new_thread pf_null_malloc sample_state 512 516).st.trace =
        [Event.malloc 66176, Event.copy_tls 65540,
          Event.store 65584 4 0, Event.store 65588 4 66176, Event.store 65592 4 65540,
          Event.store 65596 4 65540, Event.store 65600 4 0, Event.store 65544 4 65544,
          Event.store 65612 4 65664, Event.store 65572 4 3, Event.store 65616 4 65616,
          Event.store 65560 4 319951120, Event.store 65556 4 252579084,
          Event.store 65592 4 65536,
          Event.store 65596 4 65540, Event.store 512 4 65544, Event.store 516 4 65536] := by
  decide

/-- C3, as stated, fails: on `pf_huge_tls` the sum
`s + a + 65536 + tsdTableSize` is `2^32 - 1`, inside the `size_t` range, and the
rounded total wraps to 0, below the sum. -/
theorem C3_counterexample :
    pf_huge_tls.__builtin_wasm_tls_size + pf_huge_tls.__builtin_wasm_tls_align + 65536 +
        pf_huge_tls.target.ptrBytes * pf_huge_tls.PTHREAD_KEYS_MAX < pf_huge_tls.target.W ∧
      (wasi_new_thread pf_huge_tls sample_state 512 516).size = 0 ∧
      ¬ (pf_huge_tls.__builtin_wasm_tls_size + pf_huge_tls.__builtin_wasm_tls_align + 65536 +
          pf_huge_tls.target.ptrBytes * pf_huge_tls.PTHREAD_KEYS_MAX ≤
        (wasi_new_thread pf_huge_tls sample_state 512 516).size) := by
  decide

/-- C3, amended.  When `s + a + 65536 + tsdTableSize + 15` stays inside the
`size_t` range, the total region size computed by `wasi_new_thread` is
`ROUND` of the sum, is a multiple of 16, is at least the sum and exceeds it by
less than 16. -/
theorem C3_total_size_rounded (pf : Platform) (s0 : State) (o1 o2 : Nat)
    (h : pf.__builtin_wasm_tls_size + pf.__builtin_wasm_tls_align + 65536 +
      pf.target.ptrBytes * pf.PTHREAD_KEYS_MAX + 15 < pf.target.W) :
    (wasi_new_thread pf s0 o1 o2).size =
        ROUND pf.target.W (pf.__builtin_wasm_tls_size + pf.__builtin_wasm_tls_align + 65536 +
          pf.target.ptrBytes * pf.PTHREAD_KEYS_MAX) ∧
      (wasi_new_thread pf s0 o1 o2).size % 16 = 0 ∧
      pf.__builtin_wasm_tls_size + pf.__builtin_wasm_tls_align + 65536 +
          pf.target.ptrBytes * pf.PTHREAD_KEYS_MAX ≤ (wasi_new_thread pf s0 o1 o2).size ∧
      (wasi_new_thread pf s0 o1 o2).size <
        pf.__builtin_wasm_tls_size + pf.__builtin_wasm_tls_align + 65536 +
          pf.target.ptrBytes * pf.PTHREAD_KEYS_MAX + 16 := by
  have hsum := frame_sum pf s0 o1 o2 h
  have e3 := frame_size pf s0 o1 o2
  rw [hsum] at e3
  refine ⟨e3, ?_⟩
  rw [e3, ROUND_eq, Nat.mod_eq_of_lt h]
  omega

/-- Witness of C3 amended, on `pf_sample`. -/
theorem C3_total_size_rounded_witness :
    pf_sample.__builtin_wasm_tls_size + pf_sample.__builtin_wasm_tls_align + 65536 +
        pf_sample.target.ptrBytes * pf_sample.PTHREAD_KEYS_MAX + 15 < pf_sample.target.W ∧
      (wasi_new_thread pf_sample sample_state 512 516).size % 16 = 0 ∧
      (wasi_new_thread pf_sample sample_state 512 516).size = 66304 :=
  ⟨by decide, (C3_total_size_rounded pf_sample sample_state 512 516 (by decide)).2.1,
    by decide⟩

/-- C4. When the two output slots lie outside the new control block, the word
that `wasi_new_thread` leaves in `*out_new_stack` is a multiple of 16 and equals
the `stack` field of the new control block. -/
theorem C4_out_new_stack_aligned (pf : Platform) (s0 : State) (o1 o2 : Nat)
    (hout : OutputsApart pf.target (wasi_new_thread pf s0 o1 o2).new o1 o2) :
    loadOut pf.target (wasi_new_thread pf s0 o1 o2).st.mem o2 % 16 = 0 ∧
      loadOut pf.target (wasi_new_thread pf s0 o1 o2).st.mem o2 =
        loadField pf.target (wasi_new_thread pf s0 o1 o2).st.mem
          (wasi_new_thread pf s0 o1 o2).new (off_stack pf.target) := by
  have h1 := frame_out_stack pf s0 o1 o2 hout.1
  have h2 := frame_field pf s0 o1 o2 (off_stack pf.target) hout (field_in_struct pf.target).2.2.1
  rw [frame_init_mem, tcb_stores_stack] at h2
  rw [h1, h2, and_neg16_eq]
  exact ⟨by omega, rfl⟩

/-- Witness of C4, on `pf_sample` with output slots at 512 and 516. -/
theorem C4_out_new_stack_aligned_witness :
    OutputsApart pf_sample.target (wasi_new_thread pf_sample sample_state 512 516).new 512 516 ∧
      loadOut pf_sample.target (wasi_new_thread pf_sample sample_state 512 516).st.mem 516 % 16
        = 0 :=
  ⟨sample_outputs_apart,
    (C4_out_new_stack_aligned pf_sample sample_state 512 516 sample_outputs_apart).1⟩

/-- C5, as stated, fails: on `pf_late_base` nothing wraps, the result of the copy
primitive (1115135) lies in the destination slice `[1114120, 1115136)`, the
creating control block lies inside the creating TLS image and the output slots
lie outside the new control block, yet the new control block's address 1115935
is not below `map_base + map_size` = 1115648. -/
theorem C5_counterexample :
    pf_late_base.__builtin_wasm_tls_size + pf_late_base.__builtin_wasm_tls_align + 65536 +
        pf_late_base.target.ptrBytes * pf_late_base.PTHREAD_KEYS_MAX + 15 <
        pf_late_base.target.W ∧
      (wasi_new_thread pf_late_base sample_state 512 516).map +
        (wasi_new_thread pf_late_base sample_state 512 516).size < pf_late_base.target.W ∧
      (wasi_new_thread pf_late_base sample_state 512 516).stack ≤
        (wasi_new_thread pf_late_base sample_state 512 516).new_tls_base ∧
      (wasi_new_thread pf_late_base sample_state 512 516).new_tls_base <
        (wasi_new_thread pf_late_base sample_state 512 516).tsd ∧
      (wasi_new_thread pf_late_base sample_state 512 516).tls_base ≤
        (wasi_new_thread pf_late_base sample_state 512 516).self ∧
      (wasi_new_thread pf_late_base sample_state 512 516).self +
          sizeof_pthread pf_late_base.target ≤
        (wasi_new_thread pf_late_base sample_state 512 516).tls_base +
          pf_late_base.__builtin_wasm_tls_size ∧
      OutputsApart pf_late_base.target (wasi_new_thread pf_late_base sample_state 512 516).new
        512 516 ∧
      ¬ ((wasi_new_thread pf_late_base sample_state 512 516).new <
        loadField .wasm32 (wasi_new_thread pf_late_base sample_state 512 516).st.mem
            (wasi_new_thread pf_late_base sample_state 512 516).new (off_map_base .wasm32) +
          loadField .wasm32 (wasi_new_thread pf_late_base sample_state 512 516).st.mem
            (wasi_new_thread pf_late_base sample_state 512 516).new (off_map_size .wasm32)) := by
  decide

/-- C5, amended.  Suppose nothing wraps, the copy primitive returns an address
`r` with `r` not below the destination start and `r + templateSize` not above
the start of the TSD table, the creating control block's address lies inside the
creating TLS image, and the output slots lie outside the new control block.
Then the range `[map_base, map_base + map_size)` recorded in the new control
block contains the new control block's address and the returned stack pointer. -/
theorem C5_map_region_contains (pf : Platform) (s0 : State) (o1 o2 : Nat)
    (h1 : pf.__builtin_wasm_tls_size + pf.__builtin_wasm_tls_align + 65536 +
      pf.target.ptrBytes * pf.PTHREAD_KEYS_MAX + 15 < pf.target.W)
    (h2 : (wasi_new_thread pf s0 o1 o2).map + (wasi_new_thread pf s0 o1 o2).size < pf.target.W)
    (h3 : (wasi_new_thread pf s0 o1 o2).stack ≤ (wasi_new_thread pf s0 o1 o2).new_tls_base)
    (h4 : (wasi_new_thread pf s0 o1 o2).new_tls_base + pf.__builtin_wasm_tls_size ≤
      (wasi_new_thread pf s0 o1 o2).tsd)
    (h5 : (wasi_new_thread pf s0 o1 o2).tls_base ≤ (wasi_new_thread pf s0 o1 o2).self)
    (h6 : (wasi_new_thread pf s0 o1 o2).self <
      (wasi_new_thread pf s0 o1 o2).tls_base + pf.__builtin_wasm_tls_size)
    (hout : OutputsApart pf.target (wasi_new_thread pf s0 o1 o2).new o1 o2) :
    loadField pf.target (wasi_new_thread pf s0 o1 o2).st.mem (wasi_new_thread pf s0 o1 o2).new
          (off_map_base pf.target) ≤ (wasi_new_thread pf s0 o1 o2).new ∧
      (wasi_new_thread pf s0 o1 o2).new <
        loadField pf.target (wasi_new_thread pf s0 o1 o2).st.mem
            (wasi_new_thread pf s0 o1 o2).new (off_map_base pf.target) +
          loadField pf.target (wasi_new_thread pf s0 o1 o2).st.mem
            (wasi_new_thread pf s0 o1 o2).new (off_map_size pf.target) ∧
      loadField pf.target (wasi_new_thread pf s0 o1 o2).st.mem (wasi_new_thread pf s0 o1 o2).new
          (off_map_base pf.target) ≤ loadOut pf.target (wasi_new_thread pf s0 o1 o2).st.mem o2 ∧
      loadOut pf.target (wasi_new_thread pf s0 o1 o2).st.mem o2 <
        loadField pf.target (wasi_new_thread pf s0 o1 o2).st.mem
            (wasi_new_thread pf s0 o1 o2).new (off_map_base pf.target) +
          loadField pf.target (wasi_new_thread pf s0 o1 o2).st.mem
            (wasi_new_thread pf s0 o1 o2).new (off_map_size pf.target) := by
  obtain ⟨e1, e2, e3, e4, e5, e6⟩ := frame_layout pf s0 o1 o2 h1 h2
  obtain ⟨l1, l2, l3, l4, l5, l6, l7, l8⟩ := frame_lt pf s0 o1 o2
  have fb := frame_field pf s0 o1 o2 (off_map_base pf.target) hout (field_in_struct pf.target).1
  have fs := frame_field pf s0 o1 o2 (off_map_size pf.target) hout
    (field_in_struct pf.target).2.1
  rw [frame_init_mem, tcb_stores_map_base, Nat.mod_eq_of_lt l2] at fb
  rw [frame_init_mem, tcb_stores_map_size, Nat.mod_eq_of_lt l8] at fs
  have hsp := frame_out_stack pf s0 o1 o2 hout.1
  rw [and_neg16_eq, Nat.mod_eq_of_lt l4] at hsp
  have hnew : (wasi_new_thread pf s0 o1 o2).new =
      (wasi_new_thread pf s0 o1 o2).new_tls_base +
        ((wasi_new_thread pf s0 o1 o2).self - (wasi_new_thread pf s0 o1 o2).tls_base) := by
    rw [frame_new, frame_tls_offset]
    exact reloc_eq _ _ _ _ l5 l6 l7 h5 (by omega)
  rw [fb, fs, hsp]
  omega

/-- Witness of C5 amended, on `pf_sample` with output slots at 512 and 516. -/
theorem C5_map_region_contains_witness :
    (wasi_new_thread pf_sample sample_state 512 516).new_tls_base +
        pf_sample.__builtin_wasm_tls_size ≤ (wasi_new_thread pf_sample sample_state 512 516).tsd ∧
      (wasi_new_thread pf_sample sample_state 512 516).new <
        loadField pf_sample.target (wasi_new_thread pf_sample sample_state 512 516).st.mem
            (wasi_new_thread pf_sample sample_state 512 516).new (off_map_base pf_sample.target) +
          loadField pf_sample.target (wasi_new_thread pf_sample sample_state 512 516).st.mem
            (wasi_new_thread pf_sample sample_state 512 516).new
            (off_map_size pf_sample.target) :=
  ⟨by decide,
    (C5_map_region_contains pf_sample sample_state 512 516 (by decide) (by decide) (by decide)
      (by decide) (by decide) (by decide) sample_outputs_apart).2.1⟩

/-- C6. When the output slots lie outside the new control block, its `self`
field holds its own address; that address is the creating control block's
address translated by `new_tls_base - tls_base` (modulo the word size), and it
differs from the creating control block's address whenever the two TLS bases
differ. -/
theorem C6_self_is_own_address (pf : Platform) (s0 : State) (o1 o2 : Nat)
    (hout : OutputsApart pf.target (wasi_new_thread pf s0 o1 o2).new o1 o2) :
    loadField pf.target (wasi_new_thread pf s0 o1 o2).st.mem (wasi_new_thread pf s0 o1 o2).new
          (off_self pf.target) = (wasi_new_thread pf s0 o1 o2).new ∧
      (wasi_new_thread pf s0 o1 o2).new =
        addW pf.target.W (wasi_new_thread pf s0 o1 o2).self
          (subW pf.target.W (wasi_new_thread pf s0 o1 o2).new_tls_base
            (wasi_new_thread pf s0 o1 o2).tls_base) ∧
      ((wasi_new_thread pf s0 o1 o2).new_tls_base ≠ (wasi_new_thread pf s0 o1 o2).tls_base →
        (wasi_new_thread pf s0 o1 o2).new ≠ (wasi_new_thread pf s0 o1 o2).self) := by
  obtain ⟨l1, l2, l3, l4, l5, l6, l7, l8⟩ := frame_lt pf s0 o1 o2
  have fs := frame_field pf s0 o1 o2 (off_self pf.target) hout
    (field_in_struct pf.target).2.2.2.2.2.1
  rw [frame_init_mem, tcb_stores_self, Nat.mod_eq_of_lt l1] at fs
  refine ⟨fs, rfl, ?_⟩
  intro hne heq
  rw [frame_new, frame_tls_offset] at heq
  exact hne (reloc_fixed _ _ _ _ l5 l6 l7 heq)

/-- Witness of C6, on `pf_sample` with output slots at 512 and 516. -/
theorem C6_self_is_own_address_witness :
    OutputsApart pf_sample.target (wasi_new_thread pf_sample sample_state 512 516).new 512 516 ∧
      loadField pf_sample.target (wasi_new_thread pf_sample sample_state 512 516).st.mem
        (wasi_new_thread pf_sample sample_state 512 516).new (off_self pf_sample.target) =
        1114144 :=
  ⟨sample_outputs_apart,
    (C6_self_is_own_address pf_sample sample_state 512 516 sample_outputs_apart).1.trans
      (by decide)⟩

/-- C7. Suppose the output slots lie outside the new control block, the new and
the creating control block do not overlap, and the copy primitive leaves the
bytes of the creating control block unchanged.  Then `canary` and `sysinfo` of
the new control block equal `canary` and `sysinfo` of the creating control block
in the memory at the moment of the call. -/
theorem C7_canary_sysinfo_copied (pf : Platform) (s0 : State) (o1 o2 : Nat)
    (hout : OutputsApart pf.target (wasi_new_thread pf s0 o1 o2).new o1 o2)
    (hsep : apart pf.target.W (wasi_new_thread pf s0 o1 o2).self (sizeof_pthread pf.target)
      (wasi_new_thread pf s0 o1 o2).new (sizeof_pthread pf.target))
    (hcopy : ∀ i, i < sizeof_pthread pf.target →
      (pf.__copy_tls s0.mem (wasi_new_thread pf s0 o1 o2).stack).1
          (((wasi_new_thread pf s0 o1 o2).self + i) % pf.target.W) =
        s0.mem (((wasi_new_thread pf s0 o1 o2).self + i) % pf.target.W)) :
    loadField pf.target (wasi_new_thread pf s0 o1 o2).st.mem (wasi_new_thread pf s0 o1 o2).new
          (off_canary pf.target) =
        loadField pf.target s0.mem (wasi_new_thread pf s0 o1 o2).self (off_canary pf.target) ∧
      loadField pf.target (wasi_new_thread pf s0 o1 o2).st.mem (wasi_new_thread pf s0 o1 o2).new
          (off_sysinfo pf.target) =
        loadField pf.target s0.mem (wasi_new_thread pf s0 o1 o2).self
          (off_sysinfo pf.target) := by
  have fc := frame_field pf s0 o1 o2 (off_canary pf.target) hout
    (field_in_struct pf.target).2.2.2.2.2.2.2.2.2.1
  have fi := frame_field pf s0 o1 o2 (off_sysinfo pf.target) hout
    (field_in_struct pf.target).2.2.2.2.2.2.2.2.2.2
  rw [frame_init_mem, tcb_stores_canary_eq _ _ _ _ _ _ _ _ _ hsep] at fc
  rw [frame_init_mem, tcb_stores_sysinfo_eq _ _ _ _ _ _ _ _ _ hsep] at fi
  rw [fc, fi]
  exact ⟨loadField_congr _ _ _ _ _ hcopy (field_in_struct pf.target).2.2.2.2.2.2.2.2.2.1,
    loadField_congr _ _ _ _ _ hcopy (field_in_struct pf.target).2.2.2.2.2.2.2.2.2.2⟩

/-- Witness of C7, on `pf_sample`: the copied canary is the word 589439264 found
in the creating control block. -/
theorem C7_canary_sysinfo_copied_witness :
    apart pf_sample.target.W (wasi_new_thread pf_sample sample_state 512 516).self
        (sizeof_pthread pf_sample.target) (wasi_new_thread pf_sample sample_state 512 516).new
        (sizeof_pthread pf_sample.target) ∧
      loadField pf_sample.target (wasi_new_thread pf_sample sample_state 512 516).st.mem
          (wasi_new_thread pf_sample sample_state 512 516).new (off_canary pf_sample.target) =
        589439264 :=
  ⟨sample_tcbs_apart,
    (C7_canary_sysinfo_copied pf_sample sample_state 512 516 sample_outputs_apart
      sample_tcbs_apart sample_copy_keeps_self).1.trans (by decide)⟩

/-- C8. Right after the last store into the new control block, its
`robust_list.head` holds the address of that very field; the output stores keep
it so when the output slots lie outside the block; and the value is not the
address of the same field of the creating control block unless the two blocks
coincide. -/
theorem C8_robust_list_head_self_referential (pf : Platform) (s0 : State) (o1 o2 : Nat) :
    loadField pf.target (wasi_new_thread pf s0 o1 o2).init.mem (wasi_new_thread pf s0 o1 o2).new
          (off_robust_list_head pf.target) =
        addW pf.target.W (wasi_new_thread pf s0 o1 o2).new (off_robust_list_head pf.target) ∧
      (OutputsApart pf.target (wasi_new_thread pf s0 o1 o2).new o1 o2 →
        loadField pf.target (wasi_new_thread pf s0 o1 o2).st.mem
            (wasi_new_thread pf s0 o1 o2).new (off_robust_list_head pf.target) =
          addW pf.target.W (wasi_new_thread pf s0 o1 o2).new
            (off_robust_list_head pf.target)) ∧
      ((wasi_new_thread pf s0 o1 o2).new ≠ (wasi_new_thread pf s0 o1 o2).self →
        addW pf.target.W (wasi_new_thread pf s0 o1 o2).new (off_robust_list_head pf.target) ≠
          addW pf.target.W (wasi_new_thread pf s0 o1 o2).self
            (off_robust_list_head pf.target)) := by
  obtain ⟨l1, l2, l3, l4, l5, l6, l7, l8⟩ := frame_lt pf s0 o1 o2
  have fi : loadField pf.target (wasi_new_thread pf s0 o1 o2).init.mem
      (wasi_new_thread pf s0 o1 o2).new (off_robust_list_head pf.target) =
      addW pf.target.W (wasi_new_thread pf s0 o1 o2).new (off_robust_list_head pf.target) := by
    rw [frame_init_mem, tcb_stores_robust_list_head]
  refine ⟨fi, ?_, ?_⟩
  · intro hout
    rw [frame_field pf s0 o1 o2 (off_robust_list_head pf.target) hout
      (field_in_struct pf.target).2.2.2.2.2.2.2.2.1]
    exact fi
  · intro hne heq
    unfold addW at heq
    rw [Nat.add_comm _ (off_robust_list_head pf.target),
      Nat.add_comm _ (off_robust_list_head pf.target)] at heq
    exact hne (add_mod_inj _ _ _ _ l1 l5 heq)

/-- Witness of C8, on `pf_sample`: at the end of the run the head field at
1114216 holds 1114216. -/
theorem C8_robust_list_head_self_referential_witness :
    OutputsApart pf_sample.target (wasi_new_thread pf_sample sample_state 512 516).new 512 516 ∧
      (wasi_new_thread pf_sample sample_state 512 516).new ≠
        (wasi_new_thread pf_sample sample_state 512 516).self ∧
      loadField pf_sample.target (wasi_new_thread pf_sample sample_state 512 516).st.mem
          (wasi_new_thread pf_sample sample_state 512 516).new
          (off_robust_list_head pf_sample.target) = 1114216 ∧
      addW pf_sample.target.W (wasi_new_thread pf_sample sample_state 512 516).new
          (off_robust_list_head pf_sample.target) ≠
        addW pf_sample.target.W (wasi_new_thread pf_sample sample_state 512 516).self
          (off_robust_list_head pf_sample.target) :=
  ⟨sample_outputs_apart, by decide,
    ((C8_robust_list_head_self_referential pf_sample sample_state 512 516).2.1
      sample_outputs_apart).trans (by decide),
    (C8_robust_list_head_self_referential pf_sample sample_state 512 516).2.2 (by decide)⟩

/-- C9. Suppose nothing wraps and the output slots lie outside the new control
block.  Then the allocation `[map, map + size)` splits into three adjacent
slices: the stack `[map, stack)` with `stack_limit = map`, the TLS destination
`[stack, tsd)` of `tls_size` (padded) bytes, and the TSD table
`[tsd, map + size)` of `__pthread_tsd_size` bytes; the `tsd` field of the new
control block holds `tsd`, and the copy primitive is called on the start of the
TLS destination. -/
theorem C9_partition (pf : Platform) (s0 : State) (o1 o2 : Nat)
    (h1 : pf.__builtin_wasm_tls_size + pf.__builtin_wasm_tls_align + 65536 +
      pf.target.ptrBytes * pf.PTHREAD_KEYS_MAX + 15 < pf.target.W)
    (h2 : (wasi_new_thread pf s0 o1 o2).map + (wasi_new_thread pf s0 o1 o2).size < pf.target.W)
    (hout : OutputsApart pf.target (wasi_new_thread pf s0 o1 o2).new o1 o2) :
    (wasi_new_thread pf s0 o1 o2).stack_limit = (wasi_new_thread pf s0 o1 o2).map ∧
      (wasi_new_thread pf s0 o1 o2).tls_size =
        pf.__builtin_wasm_tls_size + pf.__builtin_wasm_tls_align ∧
      (wasi_new_thread pf s0 o1 o2).__pthread_tsd_size =
        pf.target.ptrBytes * pf.PTHREAD_KEYS_MAX ∧
      (wasi_new_thread pf s0 o1 o2).tsd + (wasi_new_thread pf s0 o1 o2).__pthread_tsd_size =
        (wasi_new_thread pf s0 o1 o2).map + (wasi_new_thread pf s0 o1 o2).size ∧
      (wasi_new_thread pf s0 o1 o2).stack + (wasi_new_thread pf s0 o1 o2).tls_size =
        (wasi_new_thread pf s0 o1 o2).tsd ∧
      (wasi_new_thread pf s0 o1 o2).map < (wasi_new_thread pf s0 o1 o2).stack ∧
      (∀ x, ((wasi_new_thread pf s0 o1 o2).map ≤ x ∧
            x < (wasi_new_thread pf s0 o1 o2).map + (wasi_new_thread pf s0 o1 o2).size) ↔
          (((wasi_new_thread pf s0 o1 o2).map ≤ x ∧ x < (wasi_new_thread pf s0 o1 o2).stack) ∨
            ((wasi_new_thread pf s0 o1 o2).stack ≤ x ∧ x < (wasi_new_thread pf s0 o1 o2).tsd) ∨
            ((wasi_new_thread pf s0 o1 o2).tsd ≤ x ∧
              x < (wasi_new_thread pf s0 o1 o2).map + (wasi_new_thread pf s0 o1 o2).size))) ∧
      loadField pf.target (wasi_new_thread pf s0 o1 o2).st.mem (wasi_new_thread pf s0 o1 o2).new
          (off_tsd pf.target) = (wasi_new_thread pf s0 o1 o2).tsd ∧
      Event.copy_tls (wasi_new_thread pf s0 o1 o2).stack ∈
        (wasi_new_thread pf s0 o1 o2).st.trace := by
  obtain ⟨e1, e2, e3, e4, e5, e6⟩ := frame_layout pf s0 o1 o2 h1 h2
  obtain ⟨l1, l2, l3, l4, l5, l6, l7, l8⟩ := frame_lt pf s0 o1 o2
  have ft := frame_field pf s0 o1 o2 (off_tsd pf.target) hout
    (field_in_struct pf.target).2.2.2.2.2.2.1
  rw [frame_init_mem, tcb_stores_tsd, Nat.mod_eq_of_lt l3] at ft
  obtain ⟨stores, htr, _⟩ := frame_trace pf s0 o1 o2
  refine ⟨rfl, e1, e2, e3, e4, by omega, ?_, ft, ?_⟩
  · intro x
    omega
  · rw [htr]
    simp

/-- Witness of C9, on `pf_sample`: stack `[1048576, 1114112)`, TLS destination
`[1114112, 1114368)`, TSD table `[1114368, 1114880)`. -/
theorem C9_partition_witness :
    (wasi_new_thread pf_sample sample_state 512 516).map +
        (wasi_new_thread pf_sample sample_state 512 516).size < pf_sample.target.W ∧
      (wasi_new_thread pf_sample sample_state 512 516).stack + 256 = 1114368 ∧
      (wasi_new_thread pf_sample sample_state 512 516).stack +
          (wasi_new_thread pf_sample sample_state 512 516).tls_size =
        (wasi_new_thread pf_sample sample_state 512 516).tsd :=
  ⟨by decide, by decide,
    (C9_partition pf_sample sample_state 512 516 (by decide) (by decide)
      sample_outputs_apart).2.2.2.2.1⟩

/-- C10. On the platform `pf_scenario` (TLS template size 256, alignment 16,
128 keys, pointers of 8 bytes) the run has `__pthread_tsd_size` = 1024, padded
`tls_size` = 272 and `size` = 66832, and its events are one allocation request,
of 66832 bytes, followed by events none of which is an allocation request. -/
theorem C10_concrete_scenario (tls_base tp : Nat) (mal : Nat → Nat)
    (cp : Mem → Nat → Mem × Nat) (s0 : State) (o1 o2 : Nat) :
    (wasi_new_thread (pf_scenario tls_base tp mal cp) s0 o1 o2).__pthread_tsd_size = 1024 ∧
      (wasi_new_thread (pf_scenario tls_base tp mal cp) s0 o1 o2).tls_size = 272 ∧
      (wasi_new_thread (pf_scenario tls_base tp mal cp) s0 o1 o2).size = 66832 ∧
      ∃ rest : List Event,
        (wasi_new_thread (pf_scenario tls_base tp mal cp) s0 o1 o2).st.trace =
          s0.trace ++ Event.malloc 66832 :: rest ∧
        ∀ e ∈ rest, ∀ n, e ≠ Event.malloc n := by
  have htz := frame_tsd_size (pf_scenario tls_base tp mal cp) s0 o1 o2
  have hts := frame_tls_size (pf_scenario tls_base tp mal cp) s0 o1 o2
  have hs := frame_size (pf_scenario tls_base tp mal cp) s0 o1 o2
  rw [hts, htz] at hs
  simp only [pf_scenario] at htz hts hs
  have c1 : Target.wasm64.ptrBytes * 128 % Target.wasm64.W = 1024 := by decide
  have c2 : addW Target.wasm64.W (256 % Target.wasm64.W) (16 % Target.wasm64.W) = 272 := by
    decide
  have c3 : ROUND Target.wasm64.W (addW Target.wasm64.W (addW Target.wasm64.W 272 65536) 1024) =
      66832 := by decide
  rw [c1] at htz
  rw [c2] at hts
  rw [c1, c2, c3] at hs
  have htz2 : (wasi_new_thread (pf_scenario tls_base tp mal cp) s0 o1 o2).__pthread_tsd_size =
      1024 := htz
  have hts2 : (wasi_new_thread (pf_scenario tls_base tp mal cp) s0 o1 o2).tls_size = 272 := hts
  have hs2 : (wasi_new_thread (pf_scenario tls_base tp mal cp) s0 o1 o2).size = 66832 := hs
  obtain ⟨stores, htr, hst⟩ := frame_trace (pf_scenario tls_base tp mal cp) s0 o1 o2
  refine ⟨htz2, hts2, hs2, _, by rw [htr, hs2], ?_⟩
  intro e he n hn
  rcases List.mem_cons.mp he with h | h
  · rw [h] at hn
    exact Event.noConfusion hn
  · obtain ⟨a, k, v, hv⟩ := hst e h
    rw [hv] at hn
    exact Event.noConfusion hn

/-- C11. The relocation keeps the offset of the control block inside the TLS
image: modulo the word size, `new - new_tls_base` equals `self - tls_base`, and
`new` is `self + (new_tls_base - tls_base)`. -/
theorem C11_relocation_preserves_offset (pf : Platform) (s0 : State) (o1 o2 : Nat) :
    subW pf.target.W (wasi_new_thread pf s0 o1 o2).new (wasi_new_thread pf s0 o1 o2).new_tls_base =
        subW pf.target.W (wasi_new_thread pf s0 o1 o2).self
          (wasi_new_thread pf s0 o1 o2).tls_base ∧
      (wasi_new_thread pf s0 o1 o2).new =
        addW pf.target.W (wasi_new_thread pf s0 o1 o2).self
          (subW pf.target.W (wasi_new_thread pf s0 o1 o2).new_tls_base
            (wasi_new_thread pf s0 o1 o2).tls_base) := by
  obtain ⟨l1, l2, l3, l4, l5, l6, l7, l8⟩ := frame_lt pf s0 o1 o2
  refine ⟨?_, rfl⟩
  rw [frame_new, frame_tls_offset]
  exact reloc_offset _ _ _ _ l5 l6 l7

/-- C12. Right after the last store into the new control block its
`detach_state` is `DT_DETACHED`, which is 3 and differs from `DT_JOINABLE`, and
its `guard_size` is 0; both still hold at the end of the function when the
output slots lie outside the block. -/
theorem C12_detached_no_guard (pf : Platform) (s0 : State) (o1 o2 : Nat) :
    loadIntField pf.target (wasi_new_thread pf s0 o1 o2).init.mem
          (wasi_new_thread pf s0 o1 o2).new (off_detach_state pf.target) = DT_DETACHED ∧
      DT_DETACHED = 3 ∧ DT_DETACHED ≠ DT_JOINABLE ∧
      loadField pf.target (wasi_new_thread pf s0 o1 o2).init.mem
          (wasi_new_thread pf s0 o1 o2).new (off_guard_size pf.target) = 0 ∧
      (OutputsApart pf.target (wasi_new_thread pf s0 o1 o2).new o1 o2 →
        loadIntField pf.target (wasi_new_thread pf s0 o1 o2).st.mem
            (wasi_new_thread pf s0 o1 o2).new (off_detach_state pf.target) = DT_DETACHED ∧
          loadField pf.target (wasi_new_thread pf s0 o1 o2).st.mem
            (wasi_new_thread pf s0 o1 o2).new (off_guard_size pf.target) = 0) := by
  have hd : loadIntField pf.target (wasi_new_thread pf s0 o1 o2).init.mem
      (wasi_new_thread pf s0 o1 o2).new (off_detach_state pf.target) = DT_DETACHED := by
    rw [frame_init_mem, tcb_stores_detach_state]
  have hg : loadField pf.target (wasi_new_thread pf s0 o1 o2).init.mem
      (wasi_new_thread pf s0 o1 o2).new (off_guard_size pf.target) = 0 := by
    rw [frame_init_mem, tcb_stores_guard_size]
  refine ⟨hd, rfl, by decide, hg, ?_⟩
  intro hout
  rw [frame_int_field pf s0 o1 o2 _ hout (field_in_struct pf.target).2.2.2.2.2.2.2.1,
    frame_field pf s0 o1 o2 _ hout (field_in_struct pf.target).2.2.2.2.1]
  exact ⟨hd, hg⟩

/-- Witness of C12, on `pf_sample` with output slots at 512 and 516. -/
theorem C12_detached_no_guard_witness :
    OutputsApart pf_sample.target (wasi_new_thread pf_sample sample_state 512 516).new 512 516 ∧
      loadIntField pf_sample.target (wasi_new_thread pf_sample sample_state 512 516).st.mem
          (wasi_new_thread pf_sample sample_state 512 516).new
          (off_detach_state pf_sample.target) = 3 :=
  ⟨sample_outputs_apart,
    ((C12_detached_no_guard pf_sample sample_state 512 516).2.2.2.2 sample_outputs_apart).1⟩

/-- C13. Every store of `wasi_new_thread` goes to one of the eleven initialised
fields of the new control block or to one of the two output slots; outside
these ranges the final memory is the memory returned by the copy primitive.
When the creating control block overlaps neither the new control block nor the
output slots, and the copy primitive leaves it unchanged, every field of the
creating control block has the same value after the call as before. -/
theorem C13_creating_tcb_read_only (pf : Platform) (s0 : State) (o1 o2 : Nat) :
    (∃ stores : List Event,
      (wasi_new_thread pf s0 o1 o2).st.trace =
        s0.trace ++ Event.malloc (wasi_new_thread pf s0 o1 o2).size ::
          Event.copy_tls (wasi_new_thread pf s0 o1 o2).stack :: stores ∧
      ∀ e ∈ stores, ∃ r ∈ written_ranges pf.target (wasi_new_thread pf s0 o1 o2).new o1 o2,
        ∃ v, e = Event.store (r.1 % pf.target.W) r.2 v) ∧
      (∀ x, (∀ r ∈ written_ranges pf.target (wasi_new_thread pf s0 o1 o2).new o1 o2,
          ¬ inRange pf.target.W r.1 r.2 x) →
        (wasi_new_thread pf s0 o1 o2).st.mem x =
          (pf.__copy_tls s0.mem (wasi_new_thread pf s0 o1 o2).stack).1 x) ∧
      (apart pf.target.W (wasi_new_thread pf s0 o1 o2).self (sizeof_pthread pf.target)
          (wasi_new_thread pf s0 o1 o2).new (sizeof_pthread pf.target) →
        OutputsApart pf.target (wasi_new_thread pf s0 o1 o2).self o1 o2 →
        (∀ i, i < sizeof_pthread pf.target →
          (pf.__copy_tls s0.mem (wasi_new_thread pf s0 o1 o2).stack).1
              (((wasi_new_thread pf s0 o1 o2).self + i) % pf.target.W) =
            s0.mem (((wasi_new_thread pf s0 o1 o2).self + i) % pf.target.W)) →
        ∀ off n, off + n ≤ sizeof_pthread pf.target →
          loadBytes pf.target.W (wasi_new_thread pf s0 o1 o2).st.mem
              (addW pf.target.W (wasi_new_thread pf s0 o1 o2).self off) n =
            loadBytes pf.target.W s0.mem
              (addW pf.target.W (wasi_new_thread pf s0 o1 o2).self off) n) := by
  refine ⟨frame_trace_ranges pf s0 o1 o2, frame_mem_outside pf s0 o1 o2, ?_⟩
  intro hsep hout hcopy off n hoff
  apply loadBytes_congr
  intro i hi
  rw [addW_add, frame_mem_outside pf s0 o1 o2 _
    (outside_write_set pf.target _ _ o1 o2 (off + i) hsep hout (by omega))]
  exact hcopy (off + i) (by omega)

/-- Witness of C13, on `pf_sample` with output slots at 512 and 516: the canary
of the creating control block still reads 589439264 after the call. -/
theorem C13_creating_tcb_read_only_witness :
    OutputsApart pf_sample.target (wasi_new_thread pf_sample sample_state 512 516).self 512 516 ∧
      loadBytes pf_sample.target.W (wasi_new_thread pf_sample sample_state 512 516).st.mem
          (addW pf_sample.target.W (wasi_new_thread pf_sample sample_state 512 516).self
            (off_canary pf_sample.target)) pf_sample.target.ptrBytes = 589439264 :=
  ⟨by decide,
    ((C13_creating_tcb_read_only pf_sample sample_state 512 516).2.2 sample_tcbs_apart
      (by decide) sample_copy_keeps_self (off_canary pf_sample.target) pf_sample.target.ptrBytes
      (by decide)).trans (by decide)⟩

/-- C14. Rounding down to a multiple of 16 is idempotent, and the variant
`wasi_new_thread_single`, which assigns `stack` (rounded) and `stack_size` once,
computes the same locals as `wasi_new_thread`; when the creating control block
does not overlap the new one, the memory after the stores into the new control
block and the final memory of the two runs are equal, hence so are every field
of the new control block and both output slots. -/
theorem C14_single_alignment_step (pf : Platform) (s0 : State) (o1 o2 : Nat) :
    (∀ x, and_neg16 pf.target.W (and_neg16 pf.target.W x) = and_neg16 pf.target.W x) ∧
      (wasi_new_thread_single pf s0 o1 o2).new = (wasi_new_thread pf s0 o1 o2).new ∧
      (wasi_new_thread_single pf s0 o1 o2).new_tls_base =
        (wasi_new_thread pf s0 o1 o2).new_tls_base ∧
      (wasi_new_thread_single pf s0 o1 o2).map = (wasi_new_thread pf s0 o1 o2).map ∧
      (wasi_new_thread_single pf s0 o1 o2).size = (wasi_new_thread pf s0 o1 o2).size ∧
      (wasi_new_thread_single pf s0 o1 o2).stack = (wasi_new_thread pf s0 o1 o2).stack ∧
      (apart pf.target.W (wasi_new_thread pf s0 o1 o2).self (sizeof_pthread pf.target)
          (wasi_new_thread pf s0 o1 o2).new (sizeof_pthread pf.target) →
        (wasi_new_thread_single pf s0 o1 o2).init.mem = (wasi_new_thread pf s0 o1 o2).init.mem ∧
          (wasi_new_thread_single pf s0 o1 o2).st.mem = (wasi_new_thread pf s0 o1 o2).st.mem ∧
          (∀ off, loadField pf.target (wasi_new_thread_single pf s0 o1 o2).st.mem
              (wasi_new_thread_single pf s0 o1 o2).new off =
            loadField pf.target (wasi_new_thread pf s0 o1 o2).st.mem
              (wasi_new_thread pf s0 o1 o2).new off) ∧
          loadOut pf.target (wasi_new_thread_single pf s0 o1 o2).st.mem o1 =
            loadOut pf.target (wasi_new_thread pf s0 o1 o2).st.mem o1 ∧
          loadOut pf.target (wasi_new_thread_single pf s0 o1 o2).st.mem o2 =
            loadOut pf.target (wasi_new_thread pf s0 o1 o2).st.mem o2) := by
  refine ⟨and_neg16_idem pf.target, rfl, rfl, rfl, rfl, rfl, ?_⟩
  intro hsep
  have hi : (wasi_new_thread_single pf s0 o1 o2).init.mem =
      (wasi_new_thread pf s0 o1 o2).init.mem := by
    rw [single_init_mem, frame_init_mem]
    exact tcb_stores_single_eq _ _ _ _ _ _ _ _ _ hsep
  have hm : (wasi_new_thread_single pf s0 o1 o2).st.mem = (wasi_new_thread pf s0 o1 o2).st.mem := by
    rw [single_mem, frame_mem, hi]
  have hn : (wasi_new_thread_single pf s0 o1 o2).new = (wasi_new_thread pf s0 o1 o2).new := rfl
  refine ⟨hi, hm, ?_, ?_, ?_⟩
  · intro off
    rw [hm, hn]
  · rw [hm]
  · rw [hm]

/-- Witness of C14, on `pf_sample` with output slots at 512 and 516: the variant
leaves the stack pointer 1114112 in `*out_new_stack`. -/
theorem C14_single_alignment_step_witness :
    apart pf_sample.target.W (wasi_new_thread pf_sample sample_state 512 516).self
        (sizeof_pthread pf_sample.target) (wasi_new_thread pf_sample sample_state 512 516).new
        (sizeof_pthread pf_sample.target) ∧
      loadOut pf_sample.target (wasi_new_thread_single pf_sample sample_state 512 516).st.mem 516 =
        1114112 :=
  ⟨sample_tcbs_apart,
    ((C14_single_alignment_step pf_sample sample_state 512 516).2.2.2.2.2.2
      sample_tcbs_apart).2.2.2.2.trans (by decide)⟩

/-- C15. When nothing wraps, the TLS destination `[stack, tsd)` has
`templateSize + alignment` bytes, so every address `p` in the pad
`stack ≤ p ≤ stack + alignment` leaves room for the template below the TSD
table, `p + templateSize ≤ tsd`; for a positive alignment the pad contains an
aligned address. -/
theorem C15_padding_sufficient (pf : Platform) (s0 : State) (o1 o2 : Nat)
    (h1 : pf.__builtin_wasm_tls_size + pf.__builtin_wasm_tls_align + 65536 +
      pf.target.ptrBytes * pf.PTHREAD_KEYS_MAX + 15 < pf.target.W)
    (h2 : (wasi_new_thread pf s0 o1 o2).map + (wasi_new_thread pf s0 o1 o2).size < pf.target.W) :
    (wasi_new_thread pf s0 o1 o2).stack +
          (pf.__builtin_wasm_tls_size + pf.__builtin_wasm_tls_align) =
        (wasi_new_thread pf s0 o1 o2).tsd ∧
      (∀ p, (wasi_new_thread pf s0 o1 o2).stack ≤ p →
        p ≤ (wasi_new_thread pf s0 o1 o2).stack + pf.__builtin_wasm_tls_align →
        p + pf.__builtin_wasm_tls_size ≤ (wasi_new_thread pf s0 o1 o2).tsd) ∧
      (0 < pf.__builtin_wasm_tls_align →
        ∃ p, (wasi_new_thread pf s0 o1 o2).stack ≤ p ∧
          p ≤ (wasi_new_thread pf s0 o1 o2).stack + pf.__builtin_wasm_tls_align ∧
          p % pf.__builtin_wasm_tls_align = 0) := by
  obtain ⟨e1, e2, e3, e4, e5, e6⟩ := frame_layout pf s0 o1 o2 h1 h2
  rw [e1] at e4
  refine ⟨e4, ?_, ?_⟩
  · intro p hp1 hp2
    omega
  · intro ha
    have hm := Nat.mod_lt ((wasi_new_thread pf s0 o1 o2).stack + pf.__builtin_wasm_tls_align) ha
    refine ⟨(wasi_new_thread pf s0 o1 o2).stack + pf.__builtin_wasm_tls_align -
      ((wasi_new_thread pf s0 o1 o2).stack + pf.__builtin_wasm_tls_align) %
        pf.__builtin_wasm_tls_align, by omega, by omega, ?_⟩
    exact Nat.sub_mod_eq_zero_of_mod_eq (Nat.mod_mod _ _).symm

/-- Witness of C15, on `pf_sample`: the aligned address 1114128 returned by the
sample copy primitive lies in the pad and leaves 240 bytes below the TSD table
at 1114368. -/
theorem C15_padding_sufficient_witness :
    (wasi_new_thread pf_sample sample_state 512 516).map +
        (wasi_new_thread pf_sample sample_state 512 516).size < pf_sample.target.W ∧
      (wasi_new_thread pf_sample sample_state 512 516).new_tls_base = 1114128 ∧
      1114128 + pf_sample.__builtin_wasm_tls_size ≤
        (wasi_new_thread pf_sample sample_state 512 516).tsd :=
  ⟨by decide, by decide,
    (C15_padding_sufficient pf_sample sample_state 512 516 (by decide) (by decide)).2.1
      1114128 (by decide) (by decide)⟩

/-- C16. When nothing wraps and the output slots lie outside the new control
block, the stack slice `[map, stack)` has between 65536 and 65536 + 15 bytes,
the stack pointer left in `*out_new_stack` lies between `map` and the start of
the TLS destination, and it is at least 65536 above `map` when `map` is a
multiple of 16. -/
theorem C16_stack_slice_at_least_64k (pf : Platform) (s0 : State) (o1 o2 : Nat)
    (h1 : pf.__builtin_wasm_tls_size + pf.__builtin_wasm_tls_align + 65536 +
      pf.target.ptrBytes * pf.PTHREAD_KEYS_MAX + 15 < pf.target.W)
    (h2 : (wasi_new_thread pf s0 o1 o2).map + (wasi_new_thread pf s0 o1 o2).size < pf.target.W)
    (hout : OutputsApart pf.target (wasi_new_thread pf s0 o1 o2).new o1 o2) :
    (wasi_new_thread pf s0 o1 o2).map + 65536 ≤ (wasi_new_thread pf s0 o1 o2).stack ∧
      (wasi_new_thread pf s0 o1 o2).stack ≤ (wasi_new_thread pf s0 o1 o2).map + 65536 + 15 ∧
      (wasi_new_thread pf s0 o1 o2).map ≤
        loadOut pf.target (wasi_new_thread pf s0 o1 o2).st.mem o2 ∧
      loadOut pf.target (wasi_new_thread pf s0 o1 o2).st.mem o2 ≤
        (wasi_new_thread pf s0 o1 o2).stack ∧
      ((wasi_new_thread pf s0 o1 o2).map % 16 = 0 →
        (wasi_new_thread pf s0 o1 o2).map + 65536 ≤
          loadOut pf.target (wasi_new_thread pf s0 o1 o2).st.mem o2) := by
  obtain ⟨e1, e2, e3, e4, e5, e6⟩ := frame_layout pf s0 o1 o2 h1 h2
  obtain ⟨l1, l2, l3, l4, l5, l6, l7, l8⟩ := frame_lt pf s0 o1 o2
  have hsp := frame_out_stack pf s0 o1 o2 hout.1
  rw [and_neg16_eq, Nat.mod_eq_of_lt l4] at hsp
  rw [hsp]
  refine ⟨e5, e6, by omega, by omega, ?_⟩
  intro hal
  omega

/-- Witness of C16, on `pf_sample`: allocation at 1048576, stack pointer
1114112. -/
theorem C16_stack_slice_at_least_64k_witness :
    (wasi_new_thread pf_sample sample_state 512 516).map % 16 = 0 ∧
      (wasi_new_thread pf_sample sample_state 512 516).map + 65536 ≤
        loadOut pf_sample.target (wasi_new_thread pf_sample sample_state 512 516).st.mem 516 :=
  ⟨by decide,
    (C16_stack_slice_at_least_64k pf_sample sample_state 512 516 (by decide) (by decide)
      sample_outputs_apart).2.2.2.2 (by decide)⟩

end Cre2Thread
